import Mathlib

/-!
Verification development for the Numix compiler pipeline.

This file gives a shallow embedding, in Lean 4, of the parts of the Numix
compiler that the checked properties are about:

* the three-address intermediate representation and the optimizer passes
  (`src/Numix-compiler/src/optimizer.cpp`),
* the tree-walking interpreter and its runtime values
  (`src/src/interpreter.cpp`),
* the code generator's statement lowering
  (`src/Numix-compiler/src/codegen.cpp`),
* the recursive-descent parser
  (`src/MathScript-Compiler-main/src/parser.cpp`).

Conventions of the embedding:

* `std::vector`/instruction lists become `List`; `std::unordered_map` becomes
  an association list with unique keys (`mapFind`/`mapInsert`/`mapErase`
  below reproduce `find`/`operator[]=`/`erase`).
* C++ `long long` becomes `Int` (no claim below depends on 64-bit overflow);
  the one narrowing conversion that the code performs
  (`static_cast<int>` in `Interpreter::run`) is modelled exactly by `toInt32`.
* C++ `double` is modelled as `ℚ` with exact arithmetic.  Every concrete
  numeric fact proved below only involves values on which double-precision
  arithmetic is exact (small integers, halves), so the abstraction is
  faithful there; the default `ostream` rendering of a `double`
  (`%g`, six significant digits) is modelled by `floatToString`.
* a C++ function that can throw becomes a function into `Except String`;
  thrown exceptions propagate exactly where the C++ lets them propagate.
* unbounded recursion (the interpreter's `while`/function calls, the
  parser's nested expressions) is made total with an explicit fuel
  parameter; running out of fuel is a distinguished outcome, never
  conflated with an error or a result.
-/

deriving instance DecidableEq for Except

namespace Numix

/-! ## Three-address code (`codegen.h`, struct ThreeAddressCode) -/

/-- One three-address instruction: opcode, up to two source operands, one
result operand, and a source line (`struct ThreeAddressCode`). -/
structure TAC where
  op : String
  arg1 : String
  arg2 : String
  result : String
  line : Int
deriving Repr, DecidableEq

/-! ## Association-list model of `std::unordered_map<std::string, std::string>`
with unique keys. -/

/-- `m.find(k)` on a string map. -/
def mapFind : List (String × String) → String → Option String
  | [], _ => none
  | (k2, v) :: rest, k => if k2 = k then some v else mapFind rest k

/-- `m[k] = v` on a string map: overwrite the existing binding or add one. -/
def mapInsert : List (String × String) → String → String → List (String × String)
  | [], k, v => [(k, v)]
  | (k2, v2) :: rest, k, v =>
    if k2 = k then (k2, v) :: rest else (k2, v2) :: mapInsert rest k v

/-- `m.erase(k)` on a string map. -/
def mapErase : List (String × String) → String → List (String × String)
  | [], _ => []
  | (k2, v2) :: rest, k => if k2 = k then rest else (k2, v2) :: mapErase rest k

/-! ## Optimizer (`optimizer.cpp`) -/

/-- `Optimizer::isConstant`: nonempty, optional leading `-`/`+` (which must
be followed by at least one character), all remaining characters decimal
digits. -/
def isConstant (value : String) : Bool :=
  match value.toList with
  | [] => false
  | c :: rest =>
    if c = '-' ∨ c = '+' then
      match rest with
      | [] => false
      | _ => rest.all (fun d => d.isDigit)
    else
      (c :: rest).all (fun d => d.isDigit)

/-- Decimal digits to a natural number (the digit loop inside `std::stoi`). -/
def digitsToNat (cs : List Char) : Nat :=
  cs.foldl (fun acc c => acc * 10 + (c.toNat - 48)) 0

/-- Exact integer value of an optional-sign digit string (the shapes that
`isConstant` accepts): the mathematical result of the digit loop before any
range check is applied. -/
def parseSignedDigits (s : String) : Int :=
  match s.toList with
  | '-' :: rest => -(digitsToNat rest : Int)
  | '+' :: rest => (digitsToNat rest : Int)
  | cs => (digitsToNat cs : Int)

/-- Wrap an integer into the 32-bit two's-complement range `[-2^31, 2^31)`:
the behaviour of `static_cast<int>` on a `long long`, and the
two's-complement wrap that the compiled code produces for signed `int`
arithmetic overflow (undefined behaviour in the C++ standard; no theorem
below depends on an overflowed value). -/
def toInt32 (i : Int) : Int :=
  ((i + 2 ^ 31) % 2 ^ 32) - 2 ^ 31

/-- `std::stoi` on the strings accepted by `isConstant`: an optional sign
followed by decimal digits, converted to `int`.  When the value does not fit
in 32-bit `int` — such as `"9999999999"` — `std::stoi` throws
`std::out_of_range`, modelled as the `.error` case. -/
def stoi (s : String) : Except String Int :=
  let v := parseSignedDigits s
  if v < -(2 ^ 31) ∨ 2 ^ 31 - 1 < v then .error "stoi: out of range"
  else .ok v

/-- `Optimizer::evaluateConstant`.  The two `std::stoi` calls run first, in
source order, and either can throw `std::out_of_range`, which propagates out
of the optimizer (nothing in the pass catches it).  The arithmetic is C++
`int`: 32-bit, with division/remainder truncating toward zero
(`Int.tdiv`/`Int.tmod`) and overflow wrapped by `toInt32`; on a zero right
operand the `/` and `%` branches are skipped and the function returns 0. -/
def evaluateConstant (op left right : String) : Except String Int := do
  let leftVal ← stoi left
  let rightVal ← stoi right
  if op = "+" then pure (toInt32 (leftVal + rightVal))
  else if op = "-" then pure (toInt32 (leftVal - rightVal))
  else if op = "*" then pure (toInt32 (leftVal * rightVal))
  else if op = "/" ∧ rightVal ≠ 0 then pure (toInt32 (Int.tdiv leftVal rightVal))
  else if op = "%" ∧ rightVal ≠ 0 then pure (Int.tmod leftVal rightVal)
  else pure 0

/-- The per-instruction body of `Optimizer::constantFolding`'s loop: either
the (possibly rewritten) instruction, or the `std::out_of_range` thrown by
`evaluateConstant`. -/
def foldInstr (instr : TAC) : Except String TAC :=
  if (instr.op = "+" ∨ instr.op = "-" ∨ instr.op = "*" ∨ instr.op = "/") ∧
      isConstant instr.arg1 ∧ isConstant instr.arg2 then do
    let result ← evaluateConstant instr.op instr.arg1 instr.arg2
    pure { instr with
      op := "ASSIGN"
      arg1 := toString result
      arg2 := "" }
  else pure instr

/-- `Optimizer::constantFolding`: rewrite every instruction in place, in
order; the first `std::out_of_range` thrown by a `std::stoi` call aborts
the pass (and the whole `optimize()` call) with that exception. -/
def constantFolding : List TAC → Except String (List TAC)
  | [] => .ok []
  | instr :: rest => do
    let instr2 ← foldInstr instr
    let rest2 ← constantFolding rest
    pure (instr2 :: rest2)

/-- Substitution step of `Optimizer::constantPropagation`: replace an operand
by its known constant when the map has it. -/
def cpSubst (m : List (String × String)) (a : String) : String :=
  match mapFind m a with
  | some v => v
  | none => a

/-- Tracking step of `Optimizer::constantPropagation`, applied to the
instruction after its operands were substituted: an `ASSIGN` of a constant
records the result name; any non-`ASSIGN` erases its result name; an
`ASSIGN` of a non-constant leaves the map untouched (the `else if` in the
C++ has no final `else`). -/
def cpUpdate (m : List (String × String)) (instr : TAC) : List (String × String) :=
  if instr.op = "ASSIGN" ∧ isConstant instr.arg1 then
    mapInsert m instr.result instr.arg1
  else if instr.op ≠ "ASSIGN" then
    mapErase m instr.result
  else m

/-- The forward scan of `Optimizer::constantPropagation`. -/
def cpGo (m : List (String × String)) : List TAC → List TAC
  | [] => []
  | instr :: rest =>
    let instr1 := { instr with arg1 := cpSubst m instr.arg1, arg2 := cpSubst m instr.arg2 }
    instr1 :: cpGo (cpUpdate m instr1) rest

/-- `Optimizer::constantPropagation`: single forward scan that starts from an
empty constant map. -/
def constantPropagation (code : List TAC) : List TAC :=
  cpGo [] code

/-- The per-instruction rewrite of `Optimizer::algebraicSimplification`
(the `if`/`else if` chain, in source order). -/
def simplifyInstr (instr : TAC) : TAC :=
  if instr.op = "+" ∧ instr.arg2 = "0" then
    { instr with op := "ASSIGN", arg2 := "" }
  else if instr.op = "-" ∧ instr.arg2 = "0" then
    { instr with op := "ASSIGN", arg2 := "" }
  else if instr.op = "*" ∧ instr.arg2 = "1" then
    { instr with op := "ASSIGN", arg2 := "" }
  else if instr.op = "*" ∧ (instr.arg1 = "0" ∨ instr.arg2 = "0") then
    { instr with op := "ASSIGN", arg1 := "0", arg2 := "" }
  else if instr.op = "+" ∧ instr.arg1 = "0" then
    { instr with op := "ASSIGN", arg1 := instr.arg2, arg2 := "" }
  else if instr.op = "*" ∧ instr.arg1 = "1" then
    { instr with op := "ASSIGN", arg1 := instr.arg2, arg2 := "" }
  else instr

/-- `Optimizer::algebraicSimplification`: rewrite every instruction in place. -/
def algebraicSimplification (code : List TAC) : List TAC :=
  code.map simplifyInstr

/-- `Optimizer::removeRedundantAssignments`: drop every `ASSIGN` whose source
equals its own destination.  The C++ also maintains a `valueMap`, but that
map is only written and cleared, never read to change an instruction or the
keep/drop decision, so it has no effect on the output list. -/
def removeRedundantAssignments (code : List TAC) : List TAC :=
  code.filter (fun instr => ¬(instr.op = "ASSIGN" ∧ instr.arg1 = instr.result))

/-- `!s.empty() && s[0] == 't'`: the optimizer's test for a temporary name. -/
def startsWithT (s : String) : Bool :=
  match s.toList with
  | [] => false
  | c :: _ => c = 't'

/-- Membership of `name` in the `usedTemps` set that the first scan of
`Optimizer::deadCodeElimination` collects: some instruction has it as a
nonempty `arg1` or `arg2` beginning with `'t'`. -/
def isUsedTemp (code : List TAC) (name : String) : Bool :=
  code.any (fun instr =>
    (startsWithT instr.arg1 ∧ instr.arg1 = name) ∨
    (startsWithT instr.arg2 ∧ instr.arg2 = name))

/-- `Optimizer::deadCodeElimination`: keep every instruction except an
`ASSIGN` whose nonempty result begins with `'t'` and is not in the used set. -/
def deadCodeElimination (code : List TAC) : List TAC :=
  code.filter (fun instr =>
    ¬(instr.op = "ASSIGN" ∧ instr.result ≠ "" ∧ startsWithT instr.result ∧
      ¬(isUsedTemp code instr.result = true)))

/-- `Optimizer::optimize`: the fixed five-pass sequence.  Only the
constant-folding pass can throw (via `std::stoi`); the later four passes are
total. -/
def optimize (code : List TAC) : Except String (List TAC) := do
  let folded ← constantFolding code
  pure (deadCodeElimination
    (removeRedundantAssignments
      (algebraicSimplification
        (constantPropagation folded))))

/-! ## Tokens (`token.h`) -/

/-- `enum class TokenType`. -/
inductive TokenType where
  | IDENTIFIER | NUMBER | FLOAT | STRING
  | FUNC | LET | IF | ELSE | WHILE | RETURN
  | TRUE | FALSE | AND | OR | NOT
  | INT | FLOAT_TYPE | BOOL | SEQUENCE | PATTERN
  | PLUS | MINUS | MULTIPLY | DIVIDE | MODULO
  | ASSIGN | EQUALS | NOT_EQUALS
  | LESS | GREATER | LESS_EQUAL | GREATER_EQUAL
  | LPAREN | RPAREN | LBRACE | RBRACE | LBRACKET | RBRACKET
  | COMMA | COLON | SEMICOLON | ARROW
  | END_OF_FILE | ERROR
deriving Repr, DecidableEq, Inhabited

/-- `struct Token`. -/
structure Token where
  type : TokenType
  lexeme : String
  line : Int
  column : Int
deriving Repr, DecidableEq, Inhabited

/-- `enum class DataType` (`ast.h`). -/
inductive DataType where
  | INT | FLOAT | BOOL | SEQUENCE | PATTERN | VOID | UNKNOWN
deriving Repr, DecidableEq, Inhabited

/-! ## Runtime values (`interpreter.h` / `interpreter.cpp`)

C++ `double` is modelled as `ℚ`; `long long` as `Int`. -/

/-- `Interpreter::RuntimeValue`, collapsing the C++ kind tag and payload
fields into one tagged union. -/
inductive RuntimeValue where
  | VOID
  | INT (i : Int)
  | FLOAT (q : ℚ)
  | BOOL (b : Bool)
  | STRING (s : String)
  | SEQUENCE (elems : List RuntimeValue)
deriving Repr, Inhabited

/-- `kind == INT || kind == FLOAT` (`RuntimeValue::isNumeric`). -/
def isNumeric : RuntimeValue → Bool
  | .INT _ => true
  | .FLOAT _ => true
  | _ => false

/-- `kind == FLOAT`. -/
def isFloatKind : RuntimeValue → Bool
  | .FLOAT _ => true
  | _ => false

/-- `RuntimeValue::asFloat`: Float and Int convert, Bool converts to 0/1,
anything else throws. -/
def asFloat : RuntimeValue → Except String ℚ
  | .FLOAT q => .ok q
  | .INT i => .ok (i : ℚ)
  | .BOOL b => .ok (if b then 1 else 0)
  | _ => .error "Runtime error: value is not numeric"

/-- `static_cast<long long>(double)`: truncation toward zero, which on an
exact rational is truncating division of numerator by denominator. -/
def ratTrunc (q : ℚ) : Int :=
  Int.tdiv q.num (q.den : Int)

/-- `RuntimeValue::asInt`: Int as is, Float truncated toward zero, Bool as
0/1, anything else throws. -/
def asInt : RuntimeValue → Except String Int
  | .INT i => .ok i
  | .FLOAT q => .ok (ratTrunc q)
  | .BOOL b => .ok (if b then 1 else 0)
  | _ => .error "Runtime error: value is not an integer"

/-- `RuntimeValue::isTruthy`. -/
def isTruthy : RuntimeValue → Bool
  | .VOID => false
  | .BOOL b => b
  | .INT i => i != 0
  | .FLOAT q => decide ((1 : ℚ) / 1000000000 < |q|)
  | .STRING s => s != ""
  | .SEQUENCE l => !(l.isEmpty)

/-- `RuntimeValue::asBool`: Bool as is, a numeric compares `asFloat() != 0.0`,
anything else falls back to `isTruthy`. -/
def asBool : RuntimeValue → Bool
  | .BOOL b => b
  | .INT i => i != 0
  | .FLOAT q => decide (¬(q = 0))
  | v => isTruthy v

/-! ### Default stream rendering of a double

`RuntimeValue::toString` prints a Float with `std::ostringstream <<`, i.e.
`%g` with precision 6: round to six significant digits, fixed notation when
the decimal exponent lies in `[-4, 6)`, scientific otherwise, trailing
fractional zeros stripped. -/

/-- `10^e` as a rational, for an integer exponent. -/
def qpow10 (e : Int) : ℚ :=
  if 0 ≤ e then ((10 : ℚ) ^ e.toNat) else ((1 : ℚ) / (10 : ℚ) ^ (-e).toNat)

/-- `⌊log10 a⌋` for a positive rational `a = n/d`: the digit counts of `n`
and `d` bound it to `{e0 - 1, e0}` with `e0 = ⌊log10 n⌋ - ⌊log10 d⌋`, and one
comparison settles it. -/
def qlog10 (a : ℚ) : Int :=
  let e0 : Int := (Nat.log 10 a.num.natAbs : Int) - (Nat.log 10 a.den : Int)
  if a < qpow10 e0 then e0 - 1 else e0

/-- Round to the nearest integer, ties to even (the rounding used when a
binary double is rendered in decimal). -/
def roundHalfEven (q : ℚ) : Int :=
  let fl : Int := ⌊q⌋
  let fr : ℚ := q - (fl : ℚ)
  if fr < 1 / 2 then fl
  else if 1 / 2 < fr then fl + 1
  else if fl % 2 = 0 then fl
  else fl + 1

/-- Drop trailing `'0'` characters. -/
def stripTrailingZeros (s : String) : String :=
  String.mk ((s.toList.reverse.dropWhile (fun ch => ch = '0')).reverse)

/-- `%g`-style rendering with precision 6 of an exact rational. -/
def floatToString (q : ℚ) : String :=
  if q = 0 then "0"
  else
    let sign := if q < 0 then "-" else ""
    let a := |q|
    let e1 := qlog10 a
    let mI := roundHalfEven (a * qpow10 (5 - e1))
    let m : Int := if mI ≥ 1000000 then 100000 else mI
    let e : Int := if mI ≥ 1000000 then e1 + 1 else e1
    let ds := toString m.toNat
    if -4 ≤ e ∧ e < 6 then
      if 0 ≤ e then
        let ip := ds.take (e.toNat + 1)
        let fp := stripTrailingZeros (ds.drop (e.toNat + 1))
        sign ++ ip ++ (if fp = "" then "" else "." ++ fp)
      else
        let fp := stripTrailingZeros ds
        sign ++ "0." ++ String.mk (List.replicate (-e - 1).toNat '0') ++ fp
    else
      let rest := stripTrailingZeros (ds.drop 1)
      let mant := ds.take 1 ++ (if rest = "" then "" else "." ++ rest)
      let eabs := (if e < 0 then -e else e).toNat
      let estr := if eabs < 10 then "0" ++ toString eabs else toString eabs
      sign ++ mant ++ "e" ++ (if e < 0 then "-" else "+") ++ estr

mutual

/-- `RuntimeValue::toString`. -/
def toStringV : RuntimeValue → String
  | .VOID => "void"
  | .INT i => toString i
  | .FLOAT q => floatToString q
  | .BOOL b => if b then "true" else "false"
  | .STRING s => s
  | .SEQUENCE l => "[" ++ toStringSeq l ++ "]"

/-- The comma-joined element loop inside `RuntimeValue::toString`. -/
def toStringSeq : List RuntimeValue → String
  | [] => ""
  | [v] => toStringV v
  | v :: rest => toStringV v ++ ", " ++ toStringSeq rest

end

/-! ## Binary and unary operator evaluation (`Interpreter::evaluateBinary`,
`Interpreter::evaluateUnary`), on already-evaluated operands. -/

/-- The `performNumeric` lambda in `Interpreter::evaluateBinary`: remember
whether either operand is a Float, convert both operands to double (throwing
on non-numerics), apply the operation, and keep a Float result exactly when
a Float operand was involved, otherwise truncate toward zero to an Int.

The model computes on exact rationals where the C++ computes on doubles; in
particular a quotient with zero divisor is the rational `0` here and an IEEE
infinity/NaN there.  No theorem below depends on the payload of such a
quotient, only on the absence of a thrown error. -/
def performNumeric (left right : RuntimeValue) (f : ℚ → ℚ → ℚ) :
    Except String RuntimeValue := do
  let useFloat := isFloatKind left || isFloatKind right
  let lv ← asFloat left
  let rv ← asFloat right
  let v := f lv rv
  if useFloat then pure (.FLOAT v) else pure (.INT (ratTrunc v))

/-- The operator switch of `Interpreter::evaluateBinary`, applied to the two
already-evaluated operand values. -/
def evaluateBinaryOp (op : TokenType) (left right : RuntimeValue) :
    Except String RuntimeValue :=
  match op with
  | .PLUS =>
    match left, right with
    | .SEQUENCE a, .SEQUENCE b => .ok (.SEQUENCE (a ++ b))
    | _, _ => performNumeric left right (fun a b => a + b)
  | .MINUS => performNumeric left right (fun a b => a - b)
  | .MULTIPLY => performNumeric left right (fun a b => a * b)
  | .DIVIDE => performNumeric left right (fun a b => a / b)
  | .MODULO => do
    let l ← asInt left
    let r ← asInt right
    if r = 0 then throw "Runtime error: division by zero"
    else pure (.INT (Int.tmod l r))
  | .EQUALS => .ok (.BOOL (toStringV left == toStringV right))
  | .NOT_EQUALS => .ok (.BOOL (!(toStringV left == toStringV right)))
  | .LESS => do
    let l ← asFloat left
    let r ← asFloat right
    pure (.BOOL (decide (l < r)))
  | .LESS_EQUAL => do
    let l ← asFloat left
    let r ← asFloat right
    pure (.BOOL (decide (l ≤ r)))
  | .GREATER => do
    let l ← asFloat left
    let r ← asFloat right
    pure (.BOOL (decide (r < l)))
  | .GREATER_EQUAL => do
    let l ← asFloat left
    let r ← asFloat right
    pure (.BOOL (decide (r ≤ l)))
  | .AND => .ok (.BOOL (asBool left && asBool right))
  | .OR => .ok (.BOOL (asBool left || asBool right))
  | _ => .ok .VOID

/-- The operator switch of `Interpreter::evaluateUnary`, applied to the
already-evaluated operand (`ensureNumeric` throws on a non-numeric `-`). -/
def evaluateUnaryOp (op : TokenType) (value : RuntimeValue) :
    Except String RuntimeValue :=
  match op with
  | .MINUS =>
    match value with
    | .FLOAT q => .ok (.FLOAT (-q))
    | .INT i => .ok (.INT (-i))
    | _ => .error "Runtime error: operator '-' requires numeric operands"
  | .NOT => .ok (.BOOL (!(asBool value)))
  | _ => .ok .VOID

/-! ## AST (`ast.h`) -/

/-- Expression variants (`BinaryExpr`, `UnaryExpr`, `LiteralExpr`,
`VariableExpr`, `CallExpr`, `SequenceExpr`). -/
inductive Expr where
  | Binary (left : Expr) (op : Token) (right : Expr)
  | Unary (op : Token) (right : Expr)
  | Literal (value : Token)
  | Variable (name : Token)
  | Call (callee : Token) (args : List Expr)
  | SequenceE (elems : List Expr)
deriving Repr, Inhabited

/-- Statement variants (`DeclarationStmt`, `AssignmentStmt`, `IfStmt`,
`WhileStmt`, `ReturnStmt`, `ExpressionStmt`, `BlockStmt`). -/
inductive Stmt where
  | Declaration (name : Token) (dataType : DataType) (initializer : Option Expr)
  | Assignment (name : Token) (value : Expr)
  | If (condition : Expr) (thenBranch : List Stmt) (elseBranch : List Stmt)
  | While (condition : Expr) (body : List Stmt)
  | Return (value : Option Expr)
  | ExprStmt (expression : Expr)
  | Block (statements : List Stmt)
deriving Repr, Inhabited

/-- `class FunctionDecl`. -/
structure FunctionDecl where
  name : Token
  parameters : List (Token × DataType)
  returnType : DataType
  body : List Stmt
deriving Repr, Inhabited

/-- `class Program`. -/
structure Program where
  functions : List FunctionDecl
deriving Repr, Inhabited

/-- `ASTNode::line` for expressions, as each C++ constructor sets it.
`SequenceExpr`'s constructor tests the already-moved-from parameter, so its
line always stays at the default `-1`. -/
def exprLine : Expr → Int
  | .Binary _ op _ => op.line
  | .Unary op _ => op.line
  | .Literal v => v.line
  | .Variable n => n.line
  | .Call c _ => c.line
  | .SequenceE _ => -1

/-- `ASTNode::line` for statements.  The `ReturnStmt`, `ExpressionStmt` and
`BlockStmt` constructors test an already-moved-from parameter, so their line
stays at the default `-1`; `IfStmt`/`WhileStmt` take the line of their
(always present) condition. -/
def stmtLine : Stmt → Int
  | .Declaration n _ _ => n.line
  | .Assignment n _ => n.line
  | .If c _ _ => exprLine c
  | .While c _ => exprLine c
  | .Return _ => -1
  | .ExprStmt _ => -1
  | .Block _ => -1

/-! ## Interpreter scopes (`Interpreter::scopes` and friends) -/

/-- One scope frame: `std::unordered_map<std::string, RuntimeValue>`. -/
abbrev Frame := List (String × RuntimeValue)

/-- `frame.find(n)`. -/
def frameFind : Frame → String → Option RuntimeValue
  | [], _ => none
  | (k, v) :: rest, n => if k = n then some v else frameFind rest n

/-- `frame[n] = v`. -/
def frameInsert : Frame → String → RuntimeValue → Frame
  | [], n, v => [(n, v)]
  | (k, w) :: rest, n, v =>
    if k = n then (k, v) :: rest else (k, w) :: frameInsert rest n v

/-- `frame.find(n) != frame.end()`. -/
def frameHas (f : Frame) (n : String) : Bool :=
  (frameFind f n).isSome

/-- The scope stack; the head of the list is the innermost frame
(`scopes.back()` in the C++, i.e. the first frame `rbegin()` visits). -/
abbrev Scopes := List Frame

/-- `Interpreter::define`: push a frame if the stack is empty, then write
into the innermost frame. -/
def defineVar (scopes : Scopes) (n : String) (v : RuntimeValue) : Scopes :=
  match scopes with
  | [] => [frameInsert [] n v]
  | f :: rest => frameInsert f n v :: rest

/-- Whether any frame holds the name. -/
def scopesHas (scopes : Scopes) (n : String) : Bool :=
  scopes.any (fun f => frameHas f n)

/-- Update the binding in the nearest (innermost-first) frame that has it. -/
def assignIn : Scopes → String → RuntimeValue → Scopes
  | [], _, _ => []
  | f :: rest, n, v =>
    if frameHas f n then frameInsert f n v :: rest else f :: assignIn rest n v

/-- `Interpreter::assign`: write to the nearest frame holding the name; when
no frame holds it, fall through to `define` (the "implicit define" comment
in the source), i.e. create the binding in the innermost frame. -/
def assignVar (scopes : Scopes) (n : String) (v : RuntimeValue) : Scopes :=
  if scopesHas scopes n then assignIn scopes n v else defineVar scopes n v

/-- `Interpreter::get`: nearest binding, or the undefined-variable error. -/
def getVar : Scopes → String → Except String RuntimeValue
  | [], n => .error ("Runtime error: Undefined variable '" ++ n ++ "'")
  | f :: rest, n =>
    match frameFind f n with
    | some v => .ok v
    | none => getVar rest n

/-! ## Interpreter execution -/

/-- The interpreter's mutable state: the scope stack, the captured output
log, and the external standard-input stream consumed by the `input`
built-in. -/
structure IState where
  scopes : Scopes
  output : List String
  stdinLines : List String
deriving Repr, Inhabited

/-- `pushScope`. -/
def pushScopeSt (st : IState) : IState :=
  { st with scopes := [] :: st.scopes }

/-- `popScope` (a no-op on an empty stack, as in the source). -/
def popScopeSt (st : IState) : IState :=
  { st with scopes := st.scopes.tail }

/-- Outcome of executing a fragment: normal completion, a thrown
`std::runtime_error` (carrying the state at the throw, whose output log the
top-level `run` preserves), an in-flight `ReturnSignal`, or exhausted fuel.
The C++ has no fuel; `nofuel` only marks that the model cut off a run, and
is never identified with an error or a result. -/
inductive StepRes (α : Type) where
  | ok (st : IState) (a : α)
  | thrown (st : IState) (msg : String)
  | returned (st : IState) (v : RuntimeValue)
  | nofuel
deriving Repr

/-- Sequencing: propagate thrown errors, return signals and fuel
exhaustion, continue on a normal result (the implicit exception propagation
of the C++). -/
def stepBind (r : StepRes α) (f : IState → α → StepRes β) : StepRes β :=
  match r with
  | .ok st a => f st a
  | .thrown st m => .thrown st m
  | .returned st v => .returned st v
  | .nofuel => .nofuel

/-- Turn a C++ call that throws via `Except` into a step at the current
state. -/
def stepOfExcept (st : IState) (r : Except String α) (f : α → StepRes β) :
    StepRes β :=
  match r with
  | .ok a => f a
  | .error m => .thrown st m

/-- `functions[name] = decl` in `initializeFunctionTable`: a later function
with the same name overwrites an earlier one. -/
def fdInsert : List (String × FunctionDecl) → String → FunctionDecl →
    List (String × FunctionDecl)
  | [], n, f => [(n, f)]
  | (k, g) :: rest, n, f =>
    if k = n then (k, f) :: rest else (k, g) :: fdInsert rest n f

/-- `functions.find(name)`. -/
def fdFind : List (String × FunctionDecl) → String → Option FunctionDecl
  | [], _ => none
  | (k, g) :: rest, n => if k = n then some g else fdFind rest n

/-- `Interpreter::initializeFunctionTable`. -/
def initFunctions (p : Program) : List (String × FunctionDecl) :=
  p.functions.foldl (fun m f => fdInsert m f.name.lexeme f) []

/-- `std::stod` on a FLOAT lexeme of the lexer's shape
`digits` or `digits.digits`. -/
def parseFloatLexeme (s : String) : ℚ :=
  match s.splitOn "." with
  | [ip] => (digitsToNat ip.toList : ℚ)
  | [ip, fp] =>
    (digitsToNat ip.toList : ℚ) + (digitsToNat fp.toList : ℚ) / (10 : ℚ) ^ fp.length
  | _ => 0

/-- `std::stoll` on a NUMBER lexeme (decimal digits): `long long` is 64-bit,
so every lexeme below 19 digits converts exactly; the `std::out_of_range`
throw for still larger numerals is not modelled — no checked property
evaluates such a literal. -/
def stoll (s : String) : Int :=
  parseSignedDigits s

/-- `Interpreter::evaluateLiteral`. -/
def evaluateLiteralValue (tok : Token) : RuntimeValue :=
  match tok.type with
  | .NUMBER => .INT (stoll tok.lexeme)
  | .FLOAT => .FLOAT (parseFloatLexeme tok.lexeme)
  | .TRUE => .BOOL true
  | .FALSE => .BOOL false
  | .STRING => .STRING tok.lexeme
  | _ => .VOID

/-- Whitespace predicate used by `handleInput`'s trim lambda. -/
def isWSChar (c : Char) : Bool :=
  c = ' ' ∨ c = '\t' ∨ c = '\r' ∨ c = '\n'

/-- The trim lambda in `handleInput`. -/
def trimWS (s : String) : String :=
  String.mk (((s.toList.dropWhile isWSChar).reverse.dropWhile isWSChar).reverse)

/-- Longest prefix of sign, digits, and optional fraction, as a rational,
with the count of consumed characters (a simple model of `std::stod` /
`std::stoll` prefix parsing on ordinary decimal inputs; exponent and hex
forms are not modelled — no checked property exercises them). -/
def parseDecimalPrefix (cs : List Char) : Option (ℚ × Nat) :=
  let (sgn, rest, used) :=
    match cs with
    | '-' :: r => ((-1 : ℚ), r, 1)
    | '+' :: r => ((1 : ℚ), r, 1)
    | r => ((1 : ℚ), r, 0)
  let ip := rest.takeWhile (fun c => c.isDigit)
  if ip.isEmpty then none
  else
    let afterIp := rest.drop ip.length
    match afterIp with
    | '.' :: r2 =>
      let fp := r2.takeWhile (fun c => c.isDigit)
      some (sgn * ((digitsToNat ip : ℚ) + (digitsToNat fp : ℚ) / (10 : ℚ) ^ fp.length),
        used + ip.length + 1 + fp.length)
    | _ => some (sgn * (digitsToNat ip : ℚ), used + ip.length)

/-- The parse cascade in `handleInput`: trim; empty gives 0; a full integer
parse gives the integer; otherwise a float parse truncated toward zero;
otherwise 0. -/
def parseInputValue (line : String) : Int :=
  let t := trimWS line
  if t = "" then 0
  else
    let cs := t.toList
    match parseDecimalPrefix cs with
    | none => 0
    | some (q, used) =>
      if q.den = 1 ∧ used = cs.length then q.num
      else ratTrunc q

mutual

/-- `Interpreter::evaluateExpression` / `evaluateBinary` / `evaluateUnary` /
`evaluateLiteral` / `evaluateVariable` / `evaluateSequence`, with fuel. -/
def evalExpr : Nat → List (String × FunctionDecl) → IState → Expr →
    StepRes RuntimeValue
  | 0, _, _, _ => .nofuel
  | fuel + 1, fns, st, e =>
    match e with
    | .Binary l op r =>
      stepBind (evalExpr fuel fns st l) fun st1 lv =>
        stepBind (evalExpr fuel fns st1 r) fun st2 rv =>
          stepOfExcept st2 (evaluateBinaryOp op.type lv rv) fun v => .ok st2 v
    | .Unary op r =>
      stepBind (evalExpr fuel fns st r) fun st1 v =>
        stepOfExcept st1 (evaluateUnaryOp op.type v) fun w => .ok st1 w
    | .Literal tok => .ok st (evaluateLiteralValue tok)
    | .Variable n =>
      stepOfExcept st (getVar st.scopes n.lexeme) fun v => .ok st v
    | .Call callee args => evalCall fuel fns st callee args
    | .SequenceE elems =>
      stepBind (evalArgs fuel fns st elems) fun st1 vs => .ok st1 (.SEQUENCE vs)

/-- Left-to-right evaluation of an argument/element list. -/
def evalArgs : Nat → List (String × FunctionDecl) → IState → List Expr →
    StepRes (List RuntimeValue)
  | 0, _, _, _ => .nofuel
  | _ + 1, _, st, [] => .ok st []
  | fuel + 1, fns, st, e :: rest =>
    stepBind (evalExpr fuel fns st e) fun st1 v =>
      stepBind (evalArgs fuel fns st1 rest) fun st2 vs => .ok st2 (v :: vs)

/-- `Interpreter::evaluateCall`: the seven built-ins are dispatched by name
before any user function is considered. -/
def evalCall : Nat → List (String × FunctionDecl) → IState → Token →
    List Expr → StepRes RuntimeValue
  | 0, _, _, _, _ => .nofuel
  | fuel + 1, fns, st, callee, args =>
    let n := callee.lexeme
    if n = "print" then handlePrint fuel fns st args
    else if n = "length" then handleLength fuel fns st args
    else if n = "get" then handleGet fuel fns st args
    else if n = "map" then handleMap fuel fns st args
    else if n = "filter" then handleFilter fuel fns st args
    else if n = "generate" then handleGenerate fuel fns st args
    else if n = "input" then handleInput fuel fns st args
    else
      stepBind (evalArgs fuel fns st args) fun st1 vs =>
        callUserFunction fuel fns st1 n vs

/-- `Interpreter::callUserFunction`. -/
def callUserFunction : Nat → List (String × FunctionDecl) → IState → String →
    List RuntimeValue → StepRes RuntimeValue
  | 0, _, _, _, _ => .nofuel
  | fuel + 1, fns, st, name, args =>
    match fdFind fns name with
    | none => .thrown st ("Runtime error: Undefined function '" ++ name ++ "'")
    | some f => execFunction fuel fns st f args

/-- Parameter binding loop of `executeFunction`: positional, missing
trailing arguments bind Void. -/
def bindParams : Nat → IState → List (Token × DataType) → List RuntimeValue →
    IState
  | _, st, [], _ => st
  | fuel, st, (tok, _) :: ps, [] =>
    bindParams fuel { st with scopes := defineVar st.scopes tok.lexeme .VOID } ps []
  | fuel, st, (tok, _) :: ps, a :: rest =>
    bindParams fuel { st with scopes := defineVar st.scopes tok.lexeme a } ps rest

/-- `Interpreter::executeFunction`: push a frame, bind parameters, run the
body; a `ReturnSignal` is caught here (pop one frame, yield the value), any
other exception pops one frame and rethrows, normal completion pops the
frame and yields Void. -/
def execFunction : Nat → List (String × FunctionDecl) → IState →
    FunctionDecl → List RuntimeValue → StepRes RuntimeValue
  | 0, _, _, _, _ => .nofuel
  | fuel + 1, fns, st, f, args =>
    let st1 := bindParams fuel (pushScopeSt st) f.parameters args
    match execStmts fuel fns st1 f.body with
    | .ok st2 _ => .ok (popScopeSt st2) .VOID
    | .returned st2 v => .ok (popScopeSt st2) v
    | .thrown st2 m => .thrown (popScopeSt st2) m
    | .nofuel => .nofuel

/-- Sequential statement execution (the several `for` loops over statement
vectors). -/
def execStmts : Nat → List (String × FunctionDecl) → IState → List Stmt →
    StepRes Unit
  | 0, _, _, _ => .nofuel
  | _ + 1, _, st, [] => .ok st ()
  | fuel + 1, fns, st, s :: rest =>
    stepBind (execStmt fuel fns st s) fun st1 _ => execStmts fuel fns st1 rest

/-- `Interpreter::executeStatement`.  Note that the if/while branches push a
frame and pop it only after a normal completion — the C++ has no try/catch
there, so an exception (including a `ReturnSignal`) leaves the branch frame
on the stack; only `executeBlock` (the `Block` case) pops on the way out. -/
def execStmt : Nat → List (String × FunctionDecl) → IState → Stmt →
    StepRes Unit
  | 0, _, _, _ => .nofuel
  | fuel + 1, fns, st, s =>
    match s with
    | .Declaration name _ init =>
      match init with
      | some e =>
        stepBind (evalExpr fuel fns st e) fun st1 v =>
          .ok { st1 with scopes := defineVar st1.scopes name.lexeme v } ()
      | none =>
        .ok { st with scopes := defineVar st.scopes name.lexeme .VOID } ()
    | .Assignment name e =>
      stepBind (evalExpr fuel fns st e) fun st1 v =>
        .ok { st1 with scopes := assignVar st1.scopes name.lexeme v } ()
    | .If cond thenB elseB =>
      stepBind (evalExpr fuel fns st cond) fun st1 c =>
        if asBool c then
          match execStmts fuel fns (pushScopeSt st1) thenB with
          | .ok st2 _ => .ok (popScopeSt st2) ()
          | other => other
        else if !elseB.isEmpty then
          match execStmts fuel fns (pushScopeSt st1) elseB with
          | .ok st2 _ => .ok (popScopeSt st2) ()
          | other => other
        else .ok st1 ()
    | .While cond body => whileLoop fuel fns st cond body
    | .Return val =>
      match val with
      | some e =>
        stepBind (evalExpr fuel fns st e) fun st1 v => .returned st1 v
      | none => .returned st .VOID
    | .ExprStmt e =>
      stepBind (evalExpr fuel fns st e) fun st1 _ => .ok st1 ()
    | .Block stmts =>
      match execStmts fuel fns (pushScopeSt st) stmts with
      | .ok st2 _ => .ok (popScopeSt st2) ()
      | .thrown st2 m => .thrown (popScopeSt st2) m
      | .returned st2 v => .returned (popScopeSt st2) v
      | .nofuel => .nofuel

/-- The `while` statement loop: re-evaluate the condition, push a frame, run
the body, pop, repeat. -/
def whileLoop : Nat → List (String × FunctionDecl) → IState → Expr →
    List Stmt → StepRes Unit
  | 0, _, _, _, _ => .nofuel
  | fuel + 1, fns, st, cond, body =>
    stepBind (evalExpr fuel fns st cond) fun st1 c =>
      if asBool c then
        match execStmts fuel fns (pushScopeSt st1) body with
        | .ok st2 _ => whileLoop fuel fns (popScopeSt st2) cond body
        | other => other
      else .ok st1 ()

/-- `Interpreter::handlePrint`: the argument loop, joining printed forms
with single spaces. -/
def printLoop : Nat → List (String × FunctionDecl) → IState → List Expr →
    String → Bool → StepRes String
  | 0, _, _, _, _, _ => .nofuel
  | _ + 1, _, st, [], acc, _ => .ok st acc
  | fuel + 1, fns, st, e :: rest, acc, first =>
    stepBind (evalExpr fuel fns st e) fun st1 v =>
      printLoop fuel fns st1 rest
        (acc ++ (if first then "" else " ") ++ toStringV v) false

/-- `Interpreter::handlePrint`: append one joined line to the output log,
return Void. -/
def handlePrint : Nat → List (String × FunctionDecl) → IState → List Expr →
    StepRes RuntimeValue
  | 0, _, _, _ => .nofuel
  | fuel + 1, fns, st, args =>
    stepBind (printLoop fuel fns st args "" true) fun st1 line =>
      .ok { st1 with output := st1.output ++ [line] } .VOID

/-- `Interpreter::handleLength`. -/
def handleLength : Nat → List (String × FunctionDecl) → IState → List Expr →
    StepRes RuntimeValue
  | 0, _, _, _ => .nofuel
  | fuel + 1, fns, st, args =>
    match args with
    | [e] =>
      stepBind (evalExpr fuel fns st e) fun st1 v =>
        match v with
        | .SEQUENCE l => .ok st1 (.INT (l.length : Int))
        | _ => .thrown st1 "Runtime error: length expects a sequence"
    | _ => .thrown st "Runtime error: length expects 1 argument"

/-- `Interpreter::handleGet`: evaluate both arguments, require a sequence,
convert the index with `asInt`, and range-check it. -/
def handleGet : Nat → List (String × FunctionDecl) → IState → List Expr →
    StepRes RuntimeValue
  | 0, _, _, _ => .nofuel
  | fuel + 1, fns, st, args =>
    match args with
    | [e1, e2] =>
      stepBind (evalExpr fuel fns st e1) fun st1 sv =>
        stepBind (evalExpr fuel fns st1 e2) fun st2 iv =>
          match sv with
          | .SEQUENCE l =>
            stepOfExcept st2 (asInt iv) fun idx =>
              if idx < 0 ∨ (l.length : Int) ≤ idx then
                .thrown st2 "Runtime error: sequence index out of range"
              else
                match l[idx.toNat]? with
                | some x => .ok st2 x
                | none => .thrown st2 "Runtime error: sequence index out of range"
          | _ => .thrown st2 "Runtime error: get expects a sequence as the first argument"
    | _ => .thrown st "Runtime error: get expects 2 arguments"

/-- The per-element loop of `handleMap`. -/
def mapLoop : Nat → List (String × FunctionDecl) → IState → String →
    List RuntimeValue → StepRes (List RuntimeValue)
  | 0, _, _, _, _ => .nofuel
  | _ + 1, _, st, _, [] => .ok st []
  | fuel + 1, fns, st, name, x :: xs =>
    stepBind (callUserFunction fuel fns st name [x]) fun st1 v =>
      stepBind (mapLoop fuel fns st1 name xs) fun st2 vs => .ok st2 (v :: vs)

/-- `Interpreter::handleMap`: the second argument must syntactically be a
bare variable reference (`extractFunctionName`), naming the mapper. -/
def handleMap : Nat → List (String × FunctionDecl) → IState → List Expr →
    StepRes RuntimeValue
  | 0, _, _, _ => .nofuel
  | fuel + 1, fns, st, args =>
    match args with
    | [e1, e2] =>
      stepBind (evalExpr fuel fns st e1) fun st1 sv =>
        match sv with
        | .SEQUENCE l =>
          match e2 with
          | .Variable nameTok =>
            stepBind (mapLoop fuel fns st1 nameTok.lexeme l) fun st2 vs =>
              .ok st2 (.SEQUENCE vs)
          | _ => .thrown st1 "Runtime error: expected function identifier"
        | _ => .thrown st1 "Runtime error: map expects a sequence as the first argument"
    | _ => .thrown st "Runtime error: map expects 2 arguments"

/-- The per-element loop of `handleFilter`. -/
def filterLoop : Nat → List (String × FunctionDecl) → IState → String →
    List RuntimeValue → StepRes (List RuntimeValue)
  | 0, _, _, _, _ => .nofuel
  | _ + 1, _, st, _, [] => .ok st []
  | fuel + 1, fns, st, name, x :: xs =>
    stepBind (callUserFunction fuel fns st name [x]) fun st1 keep =>
      stepBind (filterLoop fuel fns st1 name xs) fun st2 vs =>
        .ok st2 (if asBool keep then x :: vs else vs)

/-- `Interpreter::handleFilter`. -/
def handleFilter : Nat → List (String × FunctionDecl) → IState → List Expr →
    StepRes RuntimeValue
  | 0, _, _, _ => .nofuel
  | fuel + 1, fns, st, args =>
    match args with
    | [e1, e2] =>
      stepBind (evalExpr fuel fns st e1) fun st1 sv =>
        match sv with
        | .SEQUENCE l =>
          match e2 with
          | .Variable nameTok =>
            stepBind (filterLoop fuel fns st1 nameTok.lexeme l) fun st2 vs =>
              .ok st2 (.SEQUENCE vs)
          | _ => .thrown st1 "Runtime error: expected function identifier"
        | _ => .thrown st1 "Runtime error: filter expects a sequence as the first argument"
    | _ => .thrown st "Runtime error: filter expects 2 arguments"

/-- `Interpreter::handleGenerate`: evaluate the arguments for effect only
and return an empty sequence (a stub in the source). -/
def handleGenerate : Nat → List (String × FunctionDecl) → IState →
    List Expr → StepRes RuntimeValue
  | 0, _, _, _ => .nofuel
  | fuel + 1, fns, st, args =>
    stepBind (evalArgs fuel fns st args) fun st1 _ => .ok st1 (.SEQUENCE [])

/-- `Interpreter::handleInput`: at most one prompt argument (evaluated, then
written to `std::cout`, which is outside the captured output log); read one
line from the external stream, or yield 0 at end of stream; parse with the
integer/float/0 cascade. -/
def handleInput : Nat → List (String × FunctionDecl) → IState → List Expr →
    StepRes RuntimeValue
  | 0, _, _, _ => .nofuel
  | fuel + 1, fns, st, args =>
    match args with
    | [] => inputRead fuel fns st
    | [e] =>
      stepBind (evalExpr fuel fns st e) fun st1 _ => inputRead fuel fns st1
    | _ => .thrown st "Runtime error: input expects at most 1 argument"

/-- The `getline`-and-parse tail of `handleInput`. -/
def inputRead : Nat → List (String × FunctionDecl) → IState →
    StepRes RuntimeValue
  | 0, _, _ => .nofuel
  | _ + 1, _, st =>
    match st.stdinLines with
    | [] => .ok st (.INT 0)
    | line :: rest =>
      .ok { st with stdinLines := rest } (.INT (parseInputValue line))

end

/-- `struct ExecutionResult`. -/
structure ExecutionResult where
  success : Bool
  exitCode : Int
  outputLog : List String
  errorMessage : String
deriving Repr, DecidableEq

/-- `Interpreter::run` on a freshly constructed interpreter with a non-null
program: the constructor builds the function table; `run` clears the log and
scopes, fails with no execution when no function named `main` is in the
table, otherwise executes it with no arguments and converts its return
value.  Two source quirks are reproduced exactly: `result.success = true`
is assigned before the exit-code conversion, so a throwing `asInt` on the
returned value yields `success = true` together with the error message; and
the output log accumulated before a fault is preserved alongside the
failure.  `none` models only fuel exhaustion. -/
def run (fuel : Nat) (stdinLines : List String) (p : Program) :
    Option ExecutionResult :=
  let fns := initFunctions p
  match fdFind fns "main" with
  | none => some ⟨false, 0, [], "No 'main' function found"⟩
  | some mainFn =>
    match execFunction fuel fns ⟨[], [], stdinLines⟩ mainFn [] with
    | .ok st v =>
      match v with
      | .VOID => some ⟨true, 0, st.output, ""⟩
      | _ =>
        match asInt v with
        | .ok i => some ⟨true, toInt32 i, st.output, ""⟩
        | .error msg => some ⟨true, 0, st.output, msg⟩
    | .thrown st msg => some ⟨false, 0, st.output, msg⟩
    | .returned _ _ => none
    | .nofuel => none

/-! ## Parser (`parser.cpp`)

The token vector is immutable; the mutable `current` index is threaded
explicitly.  A `ParseError` carries its message and the index at the throw
(the C++ keeps the partially-advanced `current` member after a throw, which
`parsePrintStatement`'s catch-and-break relies on). -/

/-- Result of a parsing function: value and new index, a `ParseError` with
the index at the throw, or exhausted fuel (the grammar descent recursion is
unbounded in the C++). -/
inductive PRes (α : Type) where
  | ok (a : α) (cur : Nat)
  | err (msg : String) (cur : Nat)
  | nofuel
deriving Repr

/-- Sequencing of parse steps; errors and fuel exhaustion propagate. -/
def pBind (r : PRes α) (f : α → Nat → PRes β) : PRes β :=
  match r with
  | .ok a cur => f a cur
  | .err m cur => .err m cur
  | .nofuel => .nofuel

/-- `Parser::peek`: the current token, or a default `END_OF_FILE` token
(`Token(END_OF_FILE, "")`, line 1, column 1) past the end. -/
def pPeek (ts : List Token) (cur : Nat) : Token :=
  (ts[cur]?).getD ⟨.END_OF_FILE, "", 1, 1⟩

/-- `Parser::peekNext`. -/
def pPeekNext (ts : List Token) (cur : Nat) : Token :=
  (ts[cur + 1]?).getD ⟨.END_OF_FILE, "", 1, 1⟩

/-- `Parser::previous`: the token before `current`, or the default token at
index 0. -/
def pPrevious (ts : List Token) (cur : Nat) : Token :=
  if cur = 0 then ⟨.END_OF_FILE, "", 1, 1⟩
  else (ts[cur - 1]?).getD ⟨.END_OF_FILE, "", 1, 1⟩

/-- `Parser::isAtEnd`. -/
def pIsAtEnd (ts : List Token) (cur : Nat) : Bool :=
  (pPeek ts cur).type = .END_OF_FILE

/-- `Parser::advance`: step past the current token unless at end; return the
token just consumed. -/
def pAdvance (ts : List Token) (cur : Nat) : Token × Nat :=
  let cur2 := if pIsAtEnd ts cur then cur else cur + 1
  (pPrevious ts cur2, cur2)

/-- `Parser::check`. -/
def pCheck (ts : List Token) (cur : Nat) (t : TokenType) : Bool :=
  if pIsAtEnd ts cur then false else (pPeek ts cur).type = t

/-- `Parser::match` on one token type. -/
def pMatch1 (ts : List Token) (cur : Nat) (t : TokenType) : Bool × Nat :=
  if pCheck ts cur t then (true, (pAdvance ts cur).2) else (false, cur)

/-- `Parser::match` on a list of token types. -/
def pMatchL (ts : List Token) (cur : Nat) : List TokenType → Bool × Nat
  | [] => (false, cur)
  | t :: rest =>
    if pCheck ts cur t then (true, (pAdvance ts cur).2) else pMatchL ts cur rest

/-- `Parser::consume`: advance past an expected token or throw
`message + " at line " + peek().line`. -/
def pConsume (ts : List Token) (cur : Nat) (t : TokenType) (msg : String) :
    PRes Token :=
  if pCheck ts cur t then
    let (tk2, cur2) := pAdvance ts cur
    .ok tk2 cur2
  else .err (msg ++ " at line " ++ toString (pPeek ts cur).line) cur

/-- `Parser::tokenToDataType`: accepts the dedicated keyword token types and
also matches on the lexeme text. -/
def tokenToDataType (token : Token) : DataType :=
  if token.type = .INT ∨ token.lexeme = "int" then .INT
  else if token.type = .FLOAT_TYPE ∨ token.lexeme = "float" then .FLOAT
  else if token.type = .BOOL ∨ token.lexeme = "bool" then .BOOL
  else if token.type = .SEQUENCE ∨ token.lexeme = "sequence" then .SEQUENCE
  else if token.type = .PATTERN ∨ token.lexeme = "pattern" then .PATTERN
  else .UNKNOWN

/-- The token types accepted as a type annotation (`validTypeTokens`). -/
def validTypeTokens : List TokenType :=
  [.INT, .FLOAT_TYPE, .BOOL, .SEQUENCE, .PATTERN, .IDENTIFIER]

/-- `isValidType` scan: whether the current token is one of
`validTypeTokens`. -/
def pCheckValidType (ts : List Token) (cur : Nat) : Bool :=
  validTypeTokens.any (fun t => pCheck ts cur t)

/-- The statement terminators at which `parsePrintStatement` stops. -/
def printStopTypes : List TokenType :=
  [.SEMICOLON, .RBRACE, .FUNC, .LET, .IF, .WHILE, .RETURN, .ELSE, .END_OF_FILE]

/-- The token types `parsePrintStatement` accepts as the start of a further
primary argument. -/
def printPrimaryStartTypes : List TokenType :=
  [.IDENTIFIER, .STRING, .NUMBER, .FLOAT, .TRUE, .FALSE, .LPAREN, .LBRACKET]

set_option maxHeartbeats 1600000 in
mutual

/-- `Parser::parseProgram`: a sequence of `func` declarations until end of
input; anything else throws `Expected function declaration` (no line). -/
def parseProgram : Nat → List Token → Nat → PRes (List FunctionDecl)
  | 0, _, _ => .nofuel
  | fuel + 1, ts, cur =>
    if pIsAtEnd ts cur then .ok [] cur
    else
      let (m, cur1) := pMatch1 ts cur .FUNC
      if m then
        pBind (parseFunction fuel ts cur1) fun f cur2 =>
          pBind (parseProgram fuel ts cur2) fun fs cur3 => .ok (f :: fs) cur3
      else .err "Expected function declaration" cur
termination_by structural n => n

/-- `Parser::parseFunction`. -/
def parseFunction : Nat → List Token → Nat → PRes FunctionDecl
  | 0, _, _ => .nofuel
  | fuel + 1, ts, cur =>
    pBind (pConsume ts cur .IDENTIFIER "Expected function name") fun name cur1 =>
      pBind (pConsume ts cur1 .LPAREN "Expected '(' after function name") fun _ cur2 =>
        pBind (parseParameters fuel ts cur2) fun params cur3 =>
          pBind (pConsume ts cur3 .RPAREN "Expected ')' after parameters") fun _ cur4 =>
            pBind (pConsume ts cur4 .ARROW "Expected '->' after function parameters") fun _ cur5 =>
              if pCheckValidType ts cur5 then
                let (rtTok, cur6) := pAdvance ts cur5
                pBind (parseBlock fuel ts cur6) fun body cur7 =>
                  .ok ⟨name, params, tokenToDataType rtTok, body⟩ cur7
              else .err ("Expected return type, got: " ++ (pPeek ts cur5).lexeme) cur5

/-- `Parser::parseParameters`: empty on an immediate `)`; otherwise a
comma-separated `name : type` list. -/
def parseParameters : Nat → List Token → Nat → PRes (List (Token × DataType))
  | 0, _, _ => .nofuel
  | fuel + 1, ts, cur =>
    if pCheck ts cur .RPAREN then .ok [] cur
    else parseParameterLoop fuel ts cur

/-- The do-while body of `parseParameters`. -/
def parseParameterLoop : Nat → List Token → Nat → PRes (List (Token × DataType))
  | 0, _, _ => .nofuel
  | fuel + 1, ts, cur =>
    if pCheck ts cur .IDENTIFIER then
      let (name, cur1) := pAdvance ts cur
      let (mc, cur2) := pMatch1 ts cur1 .COLON
      if mc then
        if pCheckValidType ts cur2 then
          let (typeTok, cur3) := pAdvance ts cur2
          let ty := tokenToDataType typeTok
          if ty = .UNKNOWN then
            .err ("Unknown parameter type: '" ++ typeTok.lexeme ++ "'") cur3
          else
            let (mcomma, cur4) := pMatch1 ts cur3 .COMMA
            if mcomma then
              pBind (parseParameterLoop fuel ts cur4) fun ps cur5 =>
                .ok ((name, ty) :: ps) cur5
            else .ok [(name, ty)] cur4
        else
          .err ("Expected parameter type after '" ++ name.lexeme ++ ":', got: " ++
            (pPeek ts cur2).lexeme) cur2
      else .err ("Expected ':' after parameter name '" ++ name.lexeme ++ "'") cur1
    else .err ("Expected parameter name, got: " ++ (pPeek ts cur).lexeme) cur
termination_by structural n => n

/-- `Parser::parseStatement` dispatch.  In the braced-block branch the
already-consumed `{` is followed by a call to `parseBlock`, which consumes a
second `{`: a statement-level block therefore needs a double brace, and a
single-braced one is a `ParseError`. -/
def parseStatement : Nat → List Token → Nat → PRes Stmt
  | 0, _, _ => .nofuel
  | fuel + 1, ts, cur =>
    let (mLet, c1) := pMatch1 ts cur .LET
    if mLet then parseDeclaration fuel ts c1
    else
      let (mIf, c2) := pMatch1 ts cur .IF
      if mIf then parseIfStatement fuel ts c2
      else
        let (mWhile, c3) := pMatch1 ts cur .WHILE
        if mWhile then parseWhileStatement fuel ts c3
        else
          let (mRet, c4) := pMatch1 ts cur .RETURN
          if mRet then parseReturnStatement fuel ts c4
          else if pCheck ts cur .IDENTIFIER ∧ (pPeek ts cur).lexeme = "print" then
            parsePrintStatement fuel ts cur
          else if pCheck ts cur .IDENTIFIER ∧ (pPeekNext ts cur).type = .ASSIGN then
            let (_, c5) := pAdvance ts cur
            parseAssignment fuel ts c5
          else
            let (mBrace, c6) := pMatch1 ts cur .LBRACE
            if mBrace then
              pBind (parseBlock fuel ts c6) fun stmts cur2 =>
                .ok (.Block stmts) cur2
            else parseExpressionStatement fuel ts cur
termination_by structural n => n

/-- `Parser::parseDeclaration` (after `let` was consumed): `name : type`
with an optional `= expr` initialiser and optional `;`; unlike parameters,
an `UNKNOWN` data type is accepted here. -/
def parseDeclaration : Nat → List Token → Nat → PRes Stmt
  | 0, _, _ => .nofuel
  | fuel + 1, ts, cur =>
    pBind (pConsume ts cur .IDENTIFIER "Expected variable name") fun name cur1 =>
      pBind (pConsume ts cur1 .COLON "Expected ':' after variable name") fun _ cur2 =>
        if pCheckValidType ts cur2 then
          let (typeTok, cur3) := pAdvance ts cur2
          let (mAssign, cur4) := pMatch1 ts cur3 .ASSIGN
          if mAssign then
            pBind (parseExpression fuel ts cur4) fun init cur5 =>
              let (_, cur6) := pMatch1 ts cur5 .SEMICOLON
              .ok (.Declaration name (tokenToDataType typeTok) (some init)) cur6
          else
            let (_, cur6) := pMatch1 ts cur4 .SEMICOLON
            .ok (.Declaration name (tokenToDataType typeTok) none) cur6
        else
          .err ("Expected variable type after '" ++ name.lexeme ++ ":', got: " ++
            (pPeek ts cur2).lexeme) cur2

/-- `Parser::parseAssignment` (the identifier was already consumed;
`previous()` recovers it). -/
def parseAssignment : Nat → List Token → Nat → PRes Stmt
  | 0, _, _ => .nofuel
  | fuel + 1, ts, cur =>
    let name := pPrevious ts cur
    pBind (pConsume ts cur .ASSIGN "Expected '=' after variable name") fun _ cur1 =>
      pBind (parseExpression fuel ts cur1) fun value cur2 =>
        let (_, cur3) := pMatch1 ts cur2 .SEMICOLON
        .ok (.Assignment name value) cur3

/-- `Parser::parseIfStatement` (after `if`). -/
def parseIfStatement : Nat → List Token → Nat → PRes Stmt
  | 0, _, _ => .nofuel
  | fuel + 1, ts, cur =>
    pBind (parseExpression fuel ts cur) fun cond cur1 =>
      pBind (parseBlock fuel ts cur1) fun thenB cur2 =>
        let (mElse, cur3) := pMatch1 ts cur2 .ELSE
        if mElse then
          pBind (parseBlock fuel ts cur3) fun elseB cur4 =>
            .ok (.If cond thenB elseB) cur4
        else .ok (.If cond thenB []) cur3
termination_by structural n => n

/-- `Parser::parseWhileStatement` (after `while`). -/
def parseWhileStatement : Nat → List Token → Nat → PRes Stmt
  | 0, _, _ => .nofuel
  | fuel + 1, ts, cur =>
    pBind (parseExpression fuel ts cur) fun cond cur1 =>
      pBind (parseBlock fuel ts cur1) fun body cur2 =>
        .ok (.While cond body) cur2
termination_by structural n => n

/-- `Parser::parseReturnStatement` (after `return`): a value unless the next
token is `;`, then an optional `;`. -/
def parseReturnStatement : Nat → List Token → Nat → PRes Stmt
  | 0, _, _ => .nofuel
  | fuel + 1, ts, cur =>
    if pCheck ts cur .SEMICOLON then
      let (_, cur1) := pMatch1 ts cur .SEMICOLON
      .ok (.Return none) cur1
    else
      pBind (parseExpression fuel ts cur) fun v cur1 =>
        let (_, cur2) := pMatch1 ts cur1 .SEMICOLON
        .ok (.Return (some v)) cur2

/-- `Parser::parsePrintStatement`: consume the `print` identifier, then
greedily parse *primary* expressions (no operators) until a terminator,
another `print`, an assignment operator, a token that cannot start a
primary, or a `ParseError` from `parsePrimary` (caught, ending the loop at
the partially-advanced position); wrap them into a synthetic `print` call. -/
def parsePrintStatement : Nat → List Token → Nat → PRes Stmt
  | 0, _, _ => .nofuel
  | fuel + 1, ts, cur =>
    let (printTok, cur1) := pAdvance ts cur
    pBind (printArgsLoop fuel ts cur1) fun args cur2 =>
      let (_, cur3) := pMatch1 ts cur2 .SEMICOLON
      .ok (.ExprStmt (.Call printTok args)) cur3

/-- The argument loop of `parsePrintStatement`. -/
def printArgsLoop : Nat → List Token → Nat → PRes (List Expr)
  | 0, _, _ => .nofuel
  | fuel + 1, ts, cur =>
    if pIsAtEnd ts cur then .ok [] cur
    else if printStopTypes.any (fun t => (pPeek ts cur).type = t) then .ok [] cur
    else
      match parsePrimary fuel ts cur with
      | .nofuel => .nofuel
      | .err _ cur2 => .ok [] cur2
      | .ok e cur2 =>
        if pIsAtEnd ts cur2 then .ok [e] cur2
        else if printStopTypes.any (fun t => (pPeek ts cur2).type = t) then .ok [e] cur2
        else if (pPeek ts cur2).type = .IDENTIFIER ∧ (pPeek ts cur2).lexeme = "print" then
          .ok [e] cur2
        else if (pPeek ts cur2).type = .ASSIGN then .ok [e] cur2
        else if printPrimaryStartTypes.any (fun t => (pPeek ts cur2).type = t) then
          pBind (printArgsLoop fuel ts cur2) fun es cur3 => .ok (e :: es) cur3
        else .ok [e] cur2
termination_by structural n => n

/-- `Parser::parseExpressionStatement`. -/
def parseExpressionStatement : Nat → List Token → Nat → PRes Stmt
  | 0, _, _ => .nofuel
  | fuel + 1, ts, cur =>
    pBind (parseExpression fuel ts cur) fun e cur1 =>
      let (_, cur2) := pMatch1 ts cur1 .SEMICOLON
      .ok (.ExprStmt e) cur2

/-- `Parser::parseBlock`: `{`, statements until `}` or end, `}`. -/
def parseBlock : Nat → List Token → Nat → PRes (List Stmt)
  | 0, _, _ => .nofuel
  | fuel + 1, ts, cur =>
    pBind (pConsume ts cur .LBRACE "Expected '\x7b' before block") fun _ cur1 =>
      parseBlockBody fuel ts cur1
termination_by structural n => n

/-- The statement loop of `parseBlock` including the closing `}`. -/
def parseBlockBody : Nat → List Token → Nat → PRes (List Stmt)
  | 0, _, _ => .nofuel
  | fuel + 1, ts, cur =>
    if ¬(pCheck ts cur .RBRACE) ∧ ¬(pIsAtEnd ts cur) then
      pBind (parseStatement fuel ts cur) fun s cur1 =>
        pBind (parseBlockBody fuel ts cur1) fun rest cur2 =>
          .ok (s :: rest) cur2
    else
      pBind (pConsume ts cur .RBRACE "Expected '\x7d' after block") fun _ cur1 =>
        .ok [] cur1
termination_by structural n => n

/-- `Parser::parseExpression`. -/
def parseExpression : Nat → List Token → Nat → PRes Expr
  | 0, _, _ => .nofuel
  | fuel + 1, ts, cur => parseLogicalOr fuel ts cur
termination_by structural n => n

/-- `Parser::parseLogicalOr`. -/
def parseLogicalOr : Nat → List Token → Nat → PRes Expr
  | 0, _, _ => .nofuel
  | fuel + 1, ts, cur =>
    pBind (parseLogicalAnd fuel ts cur) fun e cur1 =>
      orLoop fuel ts cur1 e
termination_by structural n => n

/-- The `while (match(OR))` loop: a left-associative chain. -/
def orLoop : Nat → List Token → Nat → Expr → PRes Expr
  | 0, _, _, _ => .nofuel
  | fuel + 1, ts, cur, left =>
    let (m, cur1) := pMatch1 ts cur .OR
    if m then
      let op := pPrevious ts cur1
      pBind (parseLogicalAnd fuel ts cur1) fun right cur2 =>
        orLoop fuel ts cur2 (.Binary left op right)
    else .ok left cur1
termination_by structural n => n

/-- `Parser::parseLogicalAnd`. -/
def parseLogicalAnd : Nat → List Token → Nat → PRes Expr
  | 0, _, _ => .nofuel
  | fuel + 1, ts, cur =>
    pBind (parseEquality fuel ts cur) fun e cur1 =>
      andLoop fuel ts cur1 e
termination_by structural n => n

/-- The `while (match(AND))` loop. -/
def andLoop : Nat → List Token → Nat → Expr → PRes Expr
  | 0, _, _, _ => .nofuel
  | fuel + 1, ts, cur, left =>
    let (m, cur1) := pMatch1 ts cur .AND
    if m then
      let op := pPrevious ts cur1
      pBind (parseEquality fuel ts cur1) fun right cur2 =>
        andLoop fuel ts cur2 (.Binary left op right)
    else .ok left cur1
termination_by structural n => n

/-- `Parser::parseEquality`. -/
def parseEquality : Nat → List Token → Nat → PRes Expr
  | 0, _, _ => .nofuel
  | fuel + 1, ts, cur =>
    pBind (parseComparison fuel ts cur) fun e cur1 =>
      eqLoop fuel ts cur1 e
termination_by structural n => n

/-- The `while (match({EQUALS, NOT_EQUALS}))` loop. -/
def eqLoop : Nat → List Token → Nat → Expr → PRes Expr
  | 0, _, _, _ => .nofuel
  | fuel + 1, ts, cur, left =>
    let (m, cur1) := pMatchL ts cur [.EQUALS, .NOT_EQUALS]
    if m then
      let op := pPrevious ts cur1
      pBind (parseComparison fuel ts cur1) fun right cur2 =>
        eqLoop fuel ts cur2 (.Binary left op right)
    else .ok left cur1
termination_by structural n => n

/-- `Parser::parseComparison`. -/
def parseComparison : Nat → List Token → Nat → PRes Expr
  | 0, _, _ => .nofuel
  | fuel + 1, ts, cur =>
    pBind (parseTerm fuel ts cur) fun e cur1 =>
      cmpLoop fuel ts cur1 e
termination_by structural n => n

/-- The `while (match({LESS, LESS_EQUAL, GREATER, GREATER_EQUAL}))` loop. -/
def cmpLoop : Nat → List Token → Nat → Expr → PRes Expr
  | 0, _, _, _ => .nofuel
  | fuel + 1, ts, cur, left =>
    let (m, cur1) := pMatchL ts cur [.LESS, .LESS_EQUAL, .GREATER, .GREATER_EQUAL]
    if m then
      let op := pPrevious ts cur1
      pBind (parseTerm fuel ts cur1) fun right cur2 =>
        cmpLoop fuel ts cur2 (.Binary left op right)
    else .ok left cur1
termination_by structural n => n

/-- `Parser::parseTerm`. -/
def parseTerm : Nat → List Token → Nat → PRes Expr
  | 0, _, _ => .nofuel
  | fuel + 1, ts, cur =>
    pBind (parseFactor fuel ts cur) fun e cur1 =>
      termLoop fuel ts cur1 e
termination_by structural n => n

/-- The `while (match({PLUS, MINUS}))` loop. -/
def termLoop : Nat → List Token → Nat → Expr → PRes Expr
  | 0, _, _, _ => .nofuel
  | fuel + 1, ts, cur, left =>
    let (m, cur1) := pMatchL ts cur [.PLUS, .MINUS]
    if m then
      let op := pPrevious ts cur1
      pBind (parseFactor fuel ts cur1) fun right cur2 =>
        termLoop fuel ts cur2 (.Binary left op right)
    else .ok left cur1
termination_by structural n => n

/-- `Parser::parseFactor`. -/
def parseFactor : Nat → List Token → Nat → PRes Expr
  | 0, _, _ => .nofuel
  | fuel + 1, ts, cur =>
    pBind (parseUnary fuel ts cur) fun e cur1 =>
      factorLoop fuel ts cur1 e
termination_by structural n => n

/-- The `while (match({MULTIPLY, DIVIDE, MODULO}))` loop. -/
def factorLoop : Nat → List Token → Nat → Expr → PRes Expr
  | 0, _, _, _ => .nofuel
  | fuel + 1, ts, cur, left =>
    let (m, cur1) := pMatchL ts cur [.MULTIPLY, .DIVIDE, .MODULO]
    if m then
      let op := pPrevious ts cur1
      pBind (parseUnary fuel ts cur1) fun right cur2 =>
        factorLoop fuel ts cur2 (.Binary left op right)
    else .ok left cur1
termination_by structural n => n

/-- `Parser::parseUnary`. -/
def parseUnary : Nat → List Token → Nat → PRes Expr
  | 0, _, _ => .nofuel
  | fuel + 1, ts, cur =>
    let (m, cur1) := pMatchL ts cur [.MINUS, .NOT]
    if m then
      let op := pPrevious ts cur1
      pBind (parseUnary fuel ts cur1) fun right cur2 =>
        .ok (.Unary op right) cur2
    else parsePrimary fuel ts cur
termination_by structural n => n

/-- `Parser::parsePrimary`: literals, identifiers (possibly a call or an
index desugared into a `get` call), a parenthesised expression, or a
sequence literal; otherwise `Expected expression` (no line suffix). -/
def parsePrimary : Nat → List Token → Nat → PRes Expr
  | 0, _, _ => .nofuel
  | fuel + 1, ts, cur =>
    let (mTrue, c1) := pMatch1 ts cur .TRUE
    if mTrue then .ok (.Literal (pPrevious ts c1)) c1
    else
      let (mFalse, c2) := pMatch1 ts cur .FALSE
      if mFalse then .ok (.Literal (pPrevious ts c2)) c2
      else
        let (mLit, c3) := pMatchL ts cur [.NUMBER, .FLOAT, .STRING]
        if mLit then .ok (.Literal (pPrevious ts c3)) c3
        else
          let (mId, c4) := pMatch1 ts cur .IDENTIFIER
          if mId then
            let name := pPrevious ts c4
            let (mParen, c5) := pMatch1 ts c4 .LPAREN
            if mParen then
              pBind (parseArguments fuel ts c5) fun args cur2 =>
                .ok (.Call name args) cur2
            else
              let (mBracket, c6) := pMatch1 ts c4 .LBRACKET
              if mBracket then
                pBind (parseExpression fuel ts c6) fun idx cur2 =>
                  pBind (pConsume ts cur2 .RBRACKET "Expected ']' after index") fun _ cur3 =>
                    .ok (.Call ⟨.IDENTIFIER, "get", name.line, name.column⟩
                      [.Variable name, idx]) cur3
              else .ok (.Variable name) c6
          else
            let (mLp, c7) := pMatch1 ts cur .LPAREN
            if mLp then
              pBind (parseExpression fuel ts c7) fun e cur2 =>
                pBind (pConsume ts cur2 .RPAREN "Expected ')' after expression") fun _ cur3 =>
                  .ok e cur3
            else
              let (mLb, c8) := pMatch1 ts cur .LBRACKET
              if mLb then parseSequenceLit fuel ts c8
              else .err "Expected expression" cur
termination_by structural n => n

/-- `Parser::parseSequence` (after `[`): elements separated by commas (a
trailing comma before `]` is allowed), closed by `]`. -/
def parseSequenceLit : Nat → List Token → Nat → PRes Expr
  | 0, _, _ => .nofuel
  | fuel + 1, ts, cur =>
    if pCheck ts cur .RBRACKET then
      let (m, cur1) := pMatch1 ts cur .RBRACKET
      if m then .ok (.SequenceE []) cur1
      else .err "Expected ']' after sequence elements" cur1
    else
      pBind (seqElemsLoop fuel ts cur) fun elems cur1 =>
        let (m, cur2) := pMatch1 ts cur1 .RBRACKET
        if m then .ok (.SequenceE elems) cur2
        else .err "Expected ']' after sequence elements" cur2
termination_by structural n => n

/-- The do-while element loop of `parseSequence`. -/
def seqElemsLoop : Nat → List Token → Nat → PRes (List Expr)
  | 0, _, _ => .nofuel
  | fuel + 1, ts, cur =>
    pBind (parseExpression fuel ts cur) fun e cur1 =>
      let (m, cur2) := pMatch1 ts cur1 .COMMA
      if m then
        if pCheck ts cur2 .RBRACKET then .ok [e] cur2
        else
          pBind (seqElemsLoop fuel ts cur2) fun es cur3 => .ok (e :: es) cur3
      else .ok [e] cur2
termination_by structural n => n

/-- `Parser::parseArguments` (after `(`): like the sequence elements, closed
by `)`. -/
def parseArguments : Nat → List Token → Nat → PRes (List Expr)
  | 0, _, _ => .nofuel
  | fuel + 1, ts, cur =>
    if pCheck ts cur .RPAREN then
      let (m, cur1) := pMatch1 ts cur .RPAREN
      if m then .ok [] cur1
      else .err "Expected ')' after function arguments" cur1
    else
      pBind (argsLoop fuel ts cur) fun args cur1 =>
        let (m, cur2) := pMatch1 ts cur1 .RPAREN
        if m then .ok args cur2
        else .err "Expected ')' after function arguments" cur2
termination_by structural n => n

/-- The do-while argument loop of `parseArguments`. -/
def argsLoop : Nat → List Token → Nat → PRes (List Expr)
  | 0, _, _ => .nofuel
  | fuel + 1, ts, cur =>
    pBind (parseExpression fuel ts cur) fun e cur1 =>
      let (m, cur2) := pMatch1 ts cur1 .COMMA
      if m then
        if pCheck ts cur2 .RPAREN then .ok [e] cur2
        else
          pBind (argsLoop fuel ts cur2) fun es cur3 => .ok (e :: es) cur3
      else .ok [e] cur2
termination_by structural n => n

end

/-- `Parser::parse`: the top-level catch of `ParseError` yields a null
program.  `some (some p)` is a successful parse, `some none` a caught
`ParseError` (the C++ `nullptr`), `none` fuel exhaustion. -/
def parse (fuel : Nat) (ts : List Token) : Option (Option Program) :=
  match parseProgram fuel ts 0 with
  | .ok fns _ => some (some ⟨fns⟩)
  | .err _ _ => some none
  | .nofuel => none

/-! ## Exhibit programs and small helpers for the theorems below -/

/-- A token on line 1, column 1. -/
def tok (t : TokenType) (l : String) : Token :=
  ⟨t, l, 1, 1⟩

/-- The rational operation each arithmetic case hands to `performNumeric`. -/
def arithOpQ : TokenType → ℚ → ℚ → ℚ
  | .PLUS => fun a b => a + b
  | .MINUS => fun a b => a - b
  | .MULTIPLY => fun a b => a * b
  | .DIVIDE => fun a b => a / b
  | _ => fun _ _ => 0

/-- The double value of a numeric runtime value (`asFloat` restricted to the
numeric kinds). -/
def numericToQ : RuntimeValue → ℚ
  | .INT i => (i : ℚ)
  | .FLOAT q => q
  | _ => 0

/-- `func main() -> int { return 5 % 0; }` as an AST. -/
def exModZeroProgram : Program :=
  ⟨[⟨tok .IDENTIFIER "main", [], .INT,
    [.Return (some (.Binary (.Literal (tok .NUMBER "5")) (tok .MODULO "%")
      (.Literal (tok .NUMBER "0"))))]⟩]⟩

/-- `print 42; return 0;` — a body whose behaviour does not depend on the
surrounding scopes. -/
def mainBody42 : List Stmt :=
  [.ExprStmt (.Call (tok .IDENTIFIER "print") [.Literal (tok .NUMBER "42")]),
   .Return (some (.Literal (tok .NUMBER "0")))]

/-- A program whose only function is named `main` but takes one parameter —
the parameter token is arbitrary. -/
def exOneParamMain (param : Token) : Program :=
  ⟨[⟨tok .IDENTIFIER "main", [(param, .INT)], .INT, mainBody42⟩]⟩

/-! ## Code generator (`codegen.cpp`)

The `SymbolTableManager` calls (`enterScope`/`exitScope`/`declareSymbol`/
`markSymbolInitialized`) are bookkeeping only: the generator never reads the
table back, so they have no effect on the emitted instruction stream and are
not modelled. -/

/-- The generator's mutable state: the two counters and the instruction
list. -/
structure CGState where
  tempCounter : Nat
  labelCounter : Nat
  code : List TAC
deriving Repr, DecidableEq

/-- `CodeGenerator::newTemp`: `"t" + tempCounter++`. -/
def newTemp (s : CGState) : String × CGState :=
  ("t" ++ toString s.tempCounter, { s with tempCounter := s.tempCounter + 1 })

/-- `CodeGenerator::newLabel`: `"L" + labelCounter++`. -/
def newLabel (s : CGState) : String × CGState :=
  ("L" ++ toString s.labelCounter, { s with labelCounter := s.labelCounter + 1 })

/-- `intermediateCode.push_back`. -/
def emit (s : CGState) (i : TAC) : CGState :=
  { s with code := s.code ++ [i] }

/-- `CodeGenerator::getOperatorTAC`. -/
def getOperatorTAC : TokenType → String
  | .PLUS => "+"
  | .MINUS => "-"
  | .MULTIPLY => "*"
  | .DIVIDE => "/"
  | .MODULO => "%"
  | .EQUALS => "=="
  | .NOT_EQUALS => "!="
  | .LESS => "<"
  | .LESS_EQUAL => "<="
  | .GREATER => ">"
  | .GREATER_EQUAL => ">="
  | .AND => "&&"
  | .OR => "||"
  | .NOT => "!"
  | _ => "?"

mutual

/-- `CodeGenerator::generateExpression` and its per-variant helpers.
Returns the operand text holding the value (a literal/variable name or a
fresh temporary) and the updated state. -/
def generateExpression : Expr → CGState → String × CGState
  | .Binary l op r, s =>
    let (left, s1) := generateExpression l s
    let (right, s2) := generateExpression r s1
    let (result, s3) := newTemp s2
    (result, emit s3 ⟨getOperatorTAC op.type, left, right, result, op.line⟩)
  | .Unary op r, s =>
    let (operand, s1) := generateExpression r s
    let (result, s2) := newTemp s1
    (result, emit s2 ⟨getOperatorTAC op.type, operand, "", result, op.line⟩)
  | .Literal v, s => (v.lexeme, s)
  | .Variable n, s => (n.lexeme, s)
  | .Call callee args, s =>
    let (result, s1) := newTemp s
    let (argsStr, s2) := generateCallArgs callee.line args s1
    (result, emit s2 ⟨"CALL", callee.lexeme, argsStr, result, callee.line⟩)
  | .SequenceE elems, s =>
    let (result, s1) := newTemp s
    let s2 := emit s1 ⟨"ASSIGN", "[]", "", result, exprLine (.SequenceE elems)⟩
    (result, generateSequenceStores (exprLine (.SequenceE elems)) elems 0 result s2)

/-- The argument loop of `generateCallExpression`: one `PARAM` per argument
in order, and the comma-joined argument text. -/
def generateCallArgs (line : Int) : List Expr → CGState → String × CGState
  | [], s => ("", s)
  | e :: rest, s =>
    let (arg, s1) := generateExpression e s
    let s2 := emit s1 ⟨"PARAM", arg, "", "", line⟩
    let (restStr, s3) := generateCallArgs line rest s2
    (if restStr = "" then arg else arg ++ ", " ++ restStr, s3)

/-- The element loop of `generateSequenceExpression`: one `STORE` per
element with its index. -/
def generateSequenceStores (line : Int) : List Expr → Nat → String → CGState → CGState
  | [], _, _, s => s
  | e :: rest, i, result, s =>
    let (element, s1) := generateExpression e s
    generateSequenceStores line rest (i + 1) result
      (emit s1 ⟨"STORE", element, toString i, result, line⟩)

/-- `CodeGenerator::generateStatement` and its per-variant helpers.  The
dispatch has no `BlockStmt` case in the source, so a block statement
generates nothing. -/
def generateStatement : Stmt → CGState → CGState
  | .Declaration name _ init, s =>
    match init with
    | some e =>
      let (value, s1) := generateExpression e s
      emit s1 ⟨"ASSIGN", value, "", name.lexeme, name.line⟩
    | none => s
  | .Assignment name e, s =>
    let (value, s1) := generateExpression e s
    emit s1 ⟨"ASSIGN", value, "", name.lexeme, name.line⟩
  | .If cond thenB elseB, s =>
    let line := stmtLine (.If cond thenB elseB)
    let (condition, s1) := generateExpression cond s
    let (elseLabel, s2) := newLabel s1
    let (endLabel, s3) := newLabel s2
    let s4 := emit s3 ⟨"IF_FALSE", condition, "", elseLabel, line⟩
    let s5 := generateStatements thenB s4
    let s6 := emit s5 ⟨"GOTO", "", "", endLabel, line⟩
    let s7 := emit s6 ⟨"LABEL", "", "", elseLabel, line⟩
    let s8 := generateStatements elseB s7
    emit s8 ⟨"LABEL", "", "", endLabel, line⟩
  | .While cond body, s =>
    let line := stmtLine (.While cond body)
    let (startLabel, s1) := newLabel s
    let (conditionLabel, s2) := newLabel s1
    let (endLabel, s3) := newLabel s2
    let s4 := emit s3 ⟨"GOTO", "", "", conditionLabel, line⟩
    let s5 := emit s4 ⟨"LABEL", "", "", startLabel, line⟩
    let s6 := generateStatements body s5
    let s7 := emit s6 ⟨"LABEL", "", "", conditionLabel, line⟩
    let (condition, s8) := generateExpression cond s7
    let s9 := emit s8 ⟨"IF", condition, "", startLabel, line⟩
    emit s9 ⟨"LABEL", "", "", endLabel, line⟩
  | .Return val, s =>
    match val with
    | some e =>
      let (value, s1) := generateExpression e s
      emit s1 ⟨"RETURN", value, "", "", stmtLine (.Return (some e))⟩
    | none => emit s ⟨"RETURN", "", "", "", stmtLine (.Return none)⟩
  | .ExprStmt e, s => (generateExpression e s).2
  | .Block _, s => s

/-- Sequential lowering of a statement list. -/
def generateStatements : List Stmt → CGState → CGState
  | [], s => s
  | st :: rest, s => generateStatements rest (generateStatement st s)

end

/-- The parameter loop of `generateFunction`: one
`ASSIGN param_<name> -> <name>` per parameter. -/
def genParamAssigns : List (Token × DataType) → CGState → CGState
  | [], s => s
  | (p, _) :: rest, s =>
    genParamAssigns rest
      (emit s ⟨"ASSIGN", "param_" ++ p.lexeme, "", p.lexeme, p.line⟩)

/-- `CodeGenerator::generateFunction`: function label, parameter binds,
body, and an implicit `RETURN` for Void-returning functions. -/
def generateFunction (f : FunctionDecl) (s : CGState) : CGState :=
  let s1 := emit s ⟨"LABEL", "", "", f.name.lexeme, f.name.line⟩
  let s2 := genParamAssigns f.parameters s1
  let s3 := generateStatements f.body s2
  if f.returnType = .VOID then emit s3 ⟨"RETURN", "", "", "", f.name.line⟩
  else s3

/-- The function loop of `generateProgram`. -/
def generateFunctionList : List FunctionDecl → CGState → CGState
  | [], s => s
  | f :: rest, s => generateFunctionList rest (generateFunction f s)

/-- `CodeGenerator::generate`: clear the code and reset both counters, then
lower every function. -/
def generate (p : Program) : List TAC :=
  (generateFunctionList p.functions ⟨0, 0, []⟩).code

/-- The token stream of `func main() -> int { print 1==1; return 0; }` as
the external lexer produces it (one line; token positions are irrelevant to
the parse result). -/
def scenarioCTokens : List Token :=
  [tok .FUNC "func", tok .IDENTIFIER "main", tok .LPAREN "(", tok .RPAREN ")",
   tok .ARROW "->", tok .INT "int", tok .LBRACE "\x7b",
   tok .IDENTIFIER "print", tok .NUMBER "1", tok .EQUALS "==", tok .NUMBER "1",
   tok .SEMICOLON ";", tok .RETURN "return", tok .NUMBER "0", tok .SEMICOLON ";",
   tok .RBRACE "\x7d", tok .END_OF_FILE ""]

/-- The token stream of `func main() -> int { print (1==1); return 0; }` —
the parenthesised variant, whose `(` lets the print statement parse the
whole comparison as one primary expression. -/
def scenarioCParenTokens : List Token :=
  [tok .FUNC "func", tok .IDENTIFIER "main", tok .LPAREN "(", tok .RPAREN ")",
   tok .ARROW "->", tok .INT "int", tok .LBRACE "\x7b",
   tok .IDENTIFIER "print", tok .LPAREN "(", tok .NUMBER "1", tok .EQUALS "==",
   tok .NUMBER "1", tok .RPAREN ")", tok .SEMICOLON ";", tok .RETURN "return",
   tok .NUMBER "0", tok .SEMICOLON ";", tok .RBRACE "\x7d", tok .END_OF_FILE ""]

/-- The AST the parser produces for `scenarioCParenTokens`. -/
def scenarioCParenProgram : Program :=
  ⟨[⟨tok .IDENTIFIER "main", [], .INT,
    [.ExprStmt (.Call (tok .IDENTIFIER "print")
      [.Binary (.Literal (tok .NUMBER "1")) (tok .EQUALS "==")
        (.Literal (tok .NUMBER "1"))]),
     .Return (some (.Literal (tok .NUMBER "0")))]⟩]⟩

/-! ### Helper lemmas about individual passes -/

/-- Constant folding leaves an `ASSIGN` instruction unchanged: it is not one
of the four arithmetic opcodes. -/
theorem foldInstr_assign (i : TAC) (h : i.op = "ASSIGN") : foldInstr i = .ok i := by
  have hneg : ¬((i.op = "+" ∨ i.op = "-" ∨ i.op = "*" ∨ i.op = "/") ∧
      isConstant i.arg1 = true ∧ isConstant i.arg2 = true) := by
    intro hc
    rcases hc.1 with h1 | h1 | h1 | h1 <;> rw [h] at h1 <;> exact absurd h1 (by decide)
  unfold foldInstr
  exact if_neg hneg

/-- A successful constant-folding step yields an `ASSIGN` or the unchanged
input. -/
theorem foldInstr_ok_op (i i2 : TAC) (h : foldInstr i = .ok i2) :
    i2.op = "ASSIGN" ∨ i2 = i := by
  unfold foldInstr at h
  split at h
  · cases hev : evaluateConstant i.op i.arg1 i.arg2 with
    | error m =>
      rw [hev] at h
      replace h : (Except.error m : Except String TAC) = .ok i2 := h
      exact Except.noConfusion h
    | ok v =>
      rw [hev] at h
      replace h :
          Except.ok { i with op := "ASSIGN", arg1 := toString v, arg2 := "" } =
            .ok i2 := h
      injection h with h
      exact Or.inl (h ▸ rfl)
  · replace h : Except.ok i = .ok i2 := h
    injection h with h
    exact Or.inr h.symm

/-- A successful constant-folding step is a fixpoint of further folding. -/
theorem foldInstr_ok_idem (i i2 : TAC) (h : foldInstr i = .ok i2) :
    foldInstr i2 = .ok i2 := by
  rcases foldInstr_ok_op i i2 h with h1 | h1
  · exact foldInstr_assign i2 h1
  · subst h1
    exact h

/-- A completed constant-folding pass is a fixpoint: folding its output again
succeeds and changes nothing. -/
theorem constantFolding_ok_idem :
    ∀ code c1 : List TAC, constantFolding code = .ok c1 →
      constantFolding c1 = .ok c1 := by
  intro code
  induction code with
  | nil =>
    intro c1 h
    replace h : Except.ok ([] : List TAC) = .ok c1 := h
    injection h with h
    subst h
    rfl
  | cons a rest ih =>
    intro c1 h
    unfold constantFolding at h
    cases hfa : foldInstr a with
    | error m =>
      rw [hfa] at h
      replace h : (Except.error m : Except String (List TAC)) = .ok c1 := h
      exact Except.noConfusion h
    | ok a2 =>
      rw [hfa] at h
      cases hcr : constantFolding rest with
      | error m =>
        rw [hcr] at h
        replace h : (Except.error m : Except String (List TAC)) = .ok c1 := h
        exact Except.noConfusion h
      | ok rest2 =>
        rw [hcr] at h
        replace h : Except.ok (a2 :: rest2) = .ok c1 := h
        injection h with h
        subst h
        unfold constantFolding
        rw [foldInstr_ok_idem a a2 hfa, ih rest2 hcr]
        rfl

/-- When a constant-folding pass completes, position `n` of the output is
the successful fold of position `n` of the input. -/
theorem constantFolding_ok_get :
    ∀ code code2 : List TAC, constantFolding code = .ok code2 →
      ∀ (n : Nat) (i r : TAC), code[n]? = some i → foldInstr i = .ok r →
        code2[n]? = some r := by
  intro code
  induction code with
  | nil =>
    intro code2 h n i r hn hf
    exact absurd hn (by simp)
  | cons a rest ih =>
    intro code2 h n i r hn hf
    unfold constantFolding at h
    cases hfa : foldInstr a with
    | error m =>
      rw [hfa] at h
      replace h : (Except.error m : Except String (List TAC)) = .ok code2 := h
      exact Except.noConfusion h
    | ok a2 =>
      rw [hfa] at h
      cases hcr : constantFolding rest with
      | error m =>
        rw [hcr] at h
        replace h : (Except.error m : Except String (List TAC)) = .ok code2 := h
        exact Except.noConfusion h
      | ok rest2 =>
        rw [hcr] at h
        replace h : Except.ok (a2 :: rest2) = .ok code2 := h
        injection h with h
        subst h
        cases n with
        | zero =>
          simp only [List.getElem?_cons_zero] at hn ⊢
          injection hn with hn
          subst hn
          rw [hfa] at hf
          injection hf with hf
          rw [hf]
        | succ m =>
          simp only [List.getElem?_cons_succ] at hn ⊢
          exact ih rest2 hcr m i r hn hf

/-- Algebraic simplification leaves an `ASSIGN` instruction unchanged: every
pattern requires opcode `+`, `-` or `*`. -/
theorem simplifyInstr_assign (i : TAC) (h : i.op = "ASSIGN") : simplifyInstr i = i := by
  unfold simplifyInstr
  rw [if_neg, if_neg, if_neg, if_neg, if_neg, if_neg] <;>
    exact fun hc => absurd (h ▸ hc.1) (by decide)

/-- Every output of one algebraic-simplification step is either an `ASSIGN`
or the unchanged input. -/
theorem simplifyInstr_op (i : TAC) :
    (simplifyInstr i).op = "ASSIGN" ∨ simplifyInstr i = i := by
  unfold simplifyInstr
  split
  · exact Or.inl rfl
  · split
    · exact Or.inl rfl
    · split
      · exact Or.inl rfl
      · split
        · exact Or.inl rfl
        · split
          · exact Or.inl rfl
          · split
            · exact Or.inl rfl
            · exact Or.inr rfl

/-- One algebraic-simplification step is idempotent. -/
theorem simplifyInstr_idem (i : TAC) : simplifyInstr (simplifyInstr i) = simplifyInstr i := by
  rcases simplifyInstr_op i with h | h
  · exact simplifyInstr_assign _ h
  · rw [h]
    exact h

theorem removeRedundantAssignments_idem (code : List TAC) :
    removeRedundantAssignments (removeRedundantAssignments code) =
      removeRedundantAssignments code := by
  unfold removeRedundantAssignments
  induction code with
  | nil => rfl
  | cons i rest ih =>
    by_cases h : (decide ¬(i.op = "ASSIGN" ∧ i.arg1 = i.result)) = true
    · simp only [List.filter_cons, h, if_true, ih]
    · have h2 : (decide ¬(i.op = "ASSIGN" ∧ i.arg1 = i.result)) = false := by
        simpa using h
      simp only [List.filter_cons, h2, Bool.false_eq_true, if_false, ih]

/-! ### Claim C1: idempotence of the full optimization sequence -/

/-- C1, counterexample.  The claim states `optimize (optimize c) = optimize c`
for every instruction list `c`.  It fails on
`[x = 5, t0 = x + 1, y = t0]` (on which every pass completes without a
`std::stoi` throw): the first run propagates `5` into the addition but
cannot fold it (folding runs before propagation), leaving `t0 = 5 + 1`; the
second run folds that to `t0 = 6`, propagates `6` into `y`, and then
eliminates `t0` as dead, producing a strictly different list. -/
theorem C1_counterexample :
    (optimize
        [⟨"ASSIGN", "5", "", "x", 0⟩, ⟨"+", "x", "1", "t0", 0⟩,
          ⟨"ASSIGN", "t0", "", "y", 0⟩]).bind optimize ≠
      optimize
        [⟨"ASSIGN", "5", "", "x", 0⟩, ⟨"+", "x", "1", "t0", 0⟩,
          ⟨"ASSIGN", "t0", "", "y", 0⟩] := by
  decide

/-- C1, amended.  The full five-pass sequence is not idempotent (see
`C1_counterexample`); what does hold is idempotence of each of the three
purely local passes taken individually: when constant folding completes
without a `std::stoi` throw its output folds to itself, and algebraic
simplification and redundant-assignment removal each reach a fixpoint in
one application. -/
theorem C1_amended_local_passes_idempotent :
    (∀ code c1 : List TAC, constantFolding code = .ok c1 →
        constantFolding c1 = .ok c1) ∧
    (∀ code : List TAC,
        algebraicSimplification (algebraicSimplification code) =
          algebraicSimplification code) ∧
    (∀ code : List TAC,
        removeRedundantAssignments (removeRedundantAssignments code) =
          removeRedundantAssignments code) := by
  refine ⟨constantFolding_ok_idem, ?_, removeRedundantAssignments_idem⟩
  intro code
  unfold algebraicSimplification
  rw [List.map_map]
  exact List.map_congr_left fun i _ => simplifyInstr_idem i

/-- Witness for `C1_amended_local_passes_idempotent` at a concrete input:
folding `[t0 = 2 + 3]` completes with `[t0 = 5]`, and folding that output
again returns it unchanged. -/
theorem C1_witness :
    constantFolding [⟨"ASSIGN", "5", "", "t0", 0⟩] =
      .ok [⟨"ASSIGN", "5", "", "t0", 0⟩] :=
  C1_amended_local_passes_idempotent.1 [⟨"+", "2", "3", "t0", 0⟩]
    [⟨"ASSIGN", "5", "", "t0", 0⟩] (by decide)

/-! ### Claim C2: dead-code elimination and non-temporary destinations -/

/-- C2, counterexample.  The claim states that dead-code elimination never
removes an `ASSIGN` whose destination is a user-named (non-temporary)
variable.  The pass, however, tests only whether the destination's first
character is `'t'` — not whether it is of the compiler's temporary shape
`t<N>` — so the assignment to the user-named variable `total` (not a
`t<N>` name: its second character is not a digit) is removed when unread. -/
theorem C2_counterexample :
    deadCodeElimination [⟨"ASSIGN", "5", "", "total", 1⟩] = [] := by
  decide

/-- C2, amended.  Dead-code elimination never removes an instruction whose
result does not begin with the character `'t'`; only destinations beginning
with `'t'` (which include user-named variables such as `total`, not just
compiler temporaries `t<N>`) are eligible for elimination. -/
theorem C2_amended_non_t_destination_kept (code : List TAC) (i : TAC)
    (hmem : i ∈ code) (h : startsWithT i.result = false) :
    i ∈ deadCodeElimination code := by
  unfold deadCodeElimination
  refine List.mem_filter.mpr ⟨hmem, ?_⟩
  rw [decide_eq_true_eq]
  intro hc
  have ht := hc.2.2.1
  rw [h] at ht
  exact absurd ht Bool.false_ne_true

/-- Witness for `C2_amended_non_t_destination_kept` at a concrete input. -/
theorem C2_witness :
    (⟨"ASSIGN", "5", "", "x", 1⟩ : TAC) ∈
      deadCodeElimination [⟨"ASSIGN", "5", "", "x", 1⟩] :=
  C2_amended_non_t_destination_kept _ _ (List.mem_singleton.mpr rfl) (by decide)

/-! ### Claim C3: the constant-propagation map update -/

/-- C3, counterexample.  The claim states that every instruction writing a
result name other than an Assign-of-constant — explicitly including an
Assign whose source is not a constant — removes that name from the constant
map, so that no later operand is substituted with an overwritten constant.
In the code the removal sits in an `else if (op != "ASSIGN")` branch, so an
`ASSIGN` of a non-constant leaves the map untouched: after
`x = 5; x = y`, the scan still substitutes the overwritten constant `5`
into `z = x`. -/
theorem C3_counterexample :
    constantPropagation
        [⟨"ASSIGN", "5", "", "x", 1⟩, ⟨"ASSIGN", "y", "", "x", 2⟩,
          ⟨"ASSIGN", "x", "", "z", 3⟩] =
      [⟨"ASSIGN", "5", "", "x", 1⟩, ⟨"ASSIGN", "y", "", "x", 2⟩,
        ⟨"ASSIGN", "5", "", "z", 3⟩] := by
  decide

/-- C3, amended.  During the forward scan: an `ASSIGN` of a constant adds its
destination to the map; a non-`ASSIGN` instruction removes its result name;
but an `ASSIGN` whose source is not a constant leaves the map unchanged, so
its destination keeps any stale constant and a later operand in that
position is substituted with the overwritten constant (shown generically by
the last conjunct). -/
theorem C3_amended_map_update_behaviour :
    (∀ (m : List (String × String)) (i : TAC),
        (i.op = "ASSIGN" → isConstant i.arg1 = true →
          cpUpdate m i = mapInsert m i.result i.arg1) ∧
        (i.op ≠ "ASSIGN" → cpUpdate m i = mapErase m i.result) ∧
        (i.op = "ASSIGN" → isConstant i.arg1 = false → cpUpdate m i = m)) ∧
    (∀ (x y z c : String) (l1 l2 l3 : Int),
        isConstant c = true → isConstant y = false → y ≠ x → "" ≠ x →
        constantPropagation
            [⟨"ASSIGN", c, "", x, l1⟩, ⟨"ASSIGN", y, "", x, l2⟩,
              ⟨"ASSIGN", x, "", z, l3⟩] =
          [⟨"ASSIGN", c, "", x, l1⟩, ⟨"ASSIGN", y, "", x, l2⟩,
            ⟨"ASSIGN", c, "", z, l3⟩]) := by
  constructor
  · intro m i
    refine ⟨?_, ?_, ?_⟩
    · intro hop hc
      unfold cpUpdate
      rw [if_pos ⟨hop, hc⟩]
    · intro hop
      unfold cpUpdate
      rw [if_neg (fun hc => hop hc.1), if_pos hop]
    · intro hop hc
      unfold cpUpdate
      rw [if_neg (by rw [hc]; exact fun h2 => absurd h2.2 (by decide)),
        if_neg (fun h2 => h2 hop)]
  · intro x y z c l1 l2 l3 hc hy hyx hex
    have hxy : ¬(x = y) := fun h => hyx h.symm
    have hxe : ¬(x = "") := fun h => hex h.symm
    unfold constantPropagation
    simp [cpGo, cpSubst, cpUpdate, mapFind, mapInsert, mapErase, hc, hy, hxy, hxe]

/-- Witness for `C3_amended_map_update_behaviour` at concrete inputs. -/
theorem C3_witness :
    constantPropagation
        [⟨"ASSIGN", "5", "", "x", 1⟩, ⟨"ASSIGN", "y", "", "x", 2⟩,
          ⟨"ASSIGN", "x", "", "w", 3⟩] =
      [⟨"ASSIGN", "5", "", "x", 1⟩, ⟨"ASSIGN", "y", "", "x", 2⟩,
        ⟨"ASSIGN", "5", "", "w", 3⟩] :=
  C3_amended_map_update_behaviour.2 "x" "y" "w" "5" 1 2 3 (by decide) (by decide)
    (by decide) (by decide)

/-! ### Claim C10: constant folding on division by zero -/

/-- C10, counterexample.  The claim states that the pass is total on every
`/` instruction whose operands are syntactically integer literals with the
right one equal to 0.  It is not: `evaluateConstant` begins with two
`std::stoi` calls, and `"9999999999"` — accepted by `isConstant` but beyond
`INT_MAX` — makes the first call throw `std::out_of_range` before the
zero-divisor fall-through is ever reached, so `constantFolding` (and with it
the whole `optimize()` call) aborts with an exception instead of replacing
the instruction. -/
theorem C10_counterexample :
    constantFolding [⟨"/", "9999999999", "0", "t0", 3⟩] =
        .error "stoi: out of range" ∧
      optimize [⟨"/", "9999999999", "0", "t0", 3⟩] =
        .error "stoi: out of range" := by
  constructor <;> decide

/-- C10, amended.  For every `/` instruction whose operands are both
syntactically integer literals that fit in `int` (so both `std::stoi` calls
return, the right one returning 0), the fold replaces the instruction with
an `ASSIGN` of the literal `0`: `evaluateConstant` skips its `/` branch when
the divisor is 0 and falls through to `return 0`.  Positionally: whenever
the whole pass completes, the instruction at that index has been replaced in
place.  For out-of-`int`-range literals the pass instead throws
`std::out_of_range` (see `C10_counterexample`). -/
theorem C10_amended_in_range_div_by_zero_folds (i : TAC) (v1 : Int)
    (hop : i.op = "/") (h1 : isConstant i.arg1 = true)
    (h2 : isConstant i.arg2 = true) (hs1 : stoi i.arg1 = .ok v1)
    (hs2 : stoi i.arg2 = .ok 0) :
    foldInstr i = .ok { i with op := "ASSIGN", arg1 := "0", arg2 := "" } ∧
    ∀ (code code2 : List TAC) (n : Nat), code[n]? = some i →
      constantFolding code = .ok code2 →
      code2[n]? = some { i with op := "ASSIGN", arg1 := "0", arg2 := "" } := by
  have hfold :
      foldInstr i = .ok { i with op := "ASSIGN", arg1 := "0", arg2 := "" } := by
    have he : evaluateConstant i.op i.arg1 i.arg2 = .ok 0 := by
      unfold evaluateConstant
      rw [hs1, hs2, hop]
      rfl
    unfold foldInstr
    rw [if_pos ⟨Or.inr (Or.inr (Or.inr hop)), h1, h2⟩, he]
    rfl
  refine ⟨hfold, ?_⟩
  intro code code2 n hn hc
  exact constantFolding_ok_get code code2 hc n i _ hn hfold

/-- Witness for `C10_amended_in_range_div_by_zero_folds` at a concrete
in-range input. -/
theorem C10_witness :
    foldInstr ⟨"/", "7", "0", "t0", 3⟩ = .ok ⟨"ASSIGN", "0", "", "t0", 3⟩ ∧
    [(⟨"ASSIGN", "0", "", "t0", 3⟩ : TAC)][0]? =
      some ⟨"ASSIGN", "0", "", "t0", 3⟩ :=
  ⟨(C10_amended_in_range_div_by_zero_folds ⟨"/", "7", "0", "t0", 3⟩ 7 rfl
      (by decide) (by decide) (by decide) (by decide)).1,
   (C10_amended_in_range_div_by_zero_folds ⟨"/", "7", "0", "t0", 3⟩ 7 rfl
      (by decide) (by decide) (by decide) (by decide)).2
     [⟨"/", "7", "0", "t0", 3⟩] [⟨"ASSIGN", "0", "", "t0", 3⟩] 0 rfl (by decide)⟩

/-! ### Claim C4: zero divisors for `/` and `%` -/

/-- C4, counterexample.  The claim states that both `/` and `%` raise a
runtime error on an integer-zero right operand and that neither silently
produces a value.  `/`, however, goes through `performNumeric`, which
divides doubles and never throws: evaluating `1 / 0` produces a value (the
C++ computes an IEEE infinity and converts it; no exception is raised). -/
theorem C4_counterexample :
    (evaluateBinaryOp TokenType.DIVIDE (RuntimeValue.INT 1)
      (RuntimeValue.INT 0)).isOk = true := rfl

/-- C4, amended.  Only `%` checks its divisor: with both operands
int-convertible and the right one converting to 0 it throws the
division-by-zero runtime error (which propagates to the `run` boundary:
shown on `func main() -> int { return 5 % 0; }`, whose run fails with that
message and an empty output log); `/` never throws once both operands are
float-convertible, a zero divisor included. -/
theorem C4_amended_only_modulo_raises :
    (∀ (l r : RuntimeValue) (ri : Int), (asInt l).isOk = true →
        asInt r = .ok ri → ri = 0 →
        evaluateBinaryOp .MODULO l r = .error "Runtime error: division by zero") ∧
    (∀ l r : RuntimeValue, (asFloat l).isOk = true → (asFloat r).isOk = true →
        (evaluateBinaryOp .DIVIDE l r).isOk = true) ∧
    run 10 [] exModZeroProgram =
      some ⟨false, 0, [], "Runtime error: division by zero"⟩ := by
  refine ⟨?_, ?_, rfl⟩
  · intro l r ri hl hr hz
    cases hAl : asInt l with
    | error m => rw [hAl] at hl; simp [Except.isOk, Except.toBool] at hl
    | ok li =>
      subst hz
      unfold evaluateBinaryOp
      rw [hAl, hr]
      rfl
  · intro l r hl hr
    cases hAl : asFloat l with
    | error m => rw [hAl] at hl; simp [Except.isOk, Except.toBool] at hl
    | ok lf =>
      cases hAr : asFloat r with
      | error m => rw [hAr] at hr; simp [Except.isOk, Except.toBool] at hr
      | ok rf2 =>
        unfold evaluateBinaryOp performNumeric
        rw [hAl, hAr]
        cases hF : (isFloatKind l || isFloatKind r) <;>
          simp only [hF, Bool.false_eq_true, if_false, if_true] <;> rfl

/-- Witness for `C4_amended_only_modulo_raises` at concrete operands. -/
theorem C4_witness :
    evaluateBinaryOp .MODULO (.INT 7) (.INT 0) =
      .error "Runtime error: division by zero" ∧
    (evaluateBinaryOp .DIVIDE (.INT 3) (.INT 0)).isOk = true :=
  ⟨C4_amended_only_modulo_raises.1 (.INT 7) (.INT 0) 0 rfl rfl rfl,
   C4_amended_only_modulo_raises.2.1 (.INT 3) (.INT 0) rfl rfl⟩

/-! ### Claim C5: what `run` requires of `main` -/

/-- C5, counterexample.  The claim states that `run` returns a failure and
executes nothing whenever the program has no zero-parameter `main`.  This
program's only `main` takes one parameter, yet `run` executes it (the
output log shows the body ran) and reports success: `Interpreter::run`
looks up the name `main` only and never inspects the parameter list. -/
theorem C5_counterexample :
    run 20 [] (exOneParamMain (tok .IDENTIFIER "x")) =
      some ⟨true, 0, ["42"], ""⟩ := rfl

/-- C5, amended.  `run` fails with `No 'main' function found` — executing
nothing — exactly on the absence of a function *named* `main` from the
function table, regardless of parameter counts; when a `main` exists, even
with parameters, it is executed with the missing arguments bound to Void
(shown for an arbitrary one-parameter `main` around a body that prints and
returns). -/
theorem C5_amended_only_name_checked :
    (∀ (fuel : Nat) (stdin : List String) (p : Program),
        fdFind (initFunctions p) "main" = none →
        run fuel stdin p = some ⟨false, 0, [], "No 'main' function found"⟩) ∧
    (∀ param : Token,
        run 20 [] (exOneParamMain param) = some ⟨true, 0, ["42"], ""⟩) := by
  constructor
  · intro fuel stdin p h
    simp [run, h]
  · intro param
    rfl

/-- Witness for `C5_amended_only_name_checked` at concrete programs. -/
theorem C5_witness :
    run 3 [] ⟨[]⟩ = some ⟨false, 0, [], "No 'main' function found"⟩ ∧
    run 20 [] (exOneParamMain (tok .IDENTIFIER "y")) =
      some ⟨true, 0, ["42"], ""⟩ :=
  ⟨C5_amended_only_name_checked.1 3 [] ⟨[]⟩ rfl,
   C5_amended_only_name_checked.2 (tok .IDENTIFIER "y")⟩

/-! ### Claim C6: arithmetic kind selection and truncation -/

/-- C6.  On two numeric operands, `+ - * /` compute on doubles (modelled as
exact rationals); the result is the Float value when either operand has
Float kind, and otherwise the Int obtained by truncating toward zero. -/
theorem C6_arith_kind_selection (op : TokenType) (l r : RuntimeValue)
    (hop : op = .PLUS ∨ op = .MINUS ∨ op = .MULTIPLY ∨ op = .DIVIDE)
    (hl : isNumeric l = true) (hr : isNumeric r = true) :
    evaluateBinaryOp op l r =
      (if isFloatKind l || isFloatKind r then
        .ok (.FLOAT (arithOpQ op (numericToQ l) (numericToQ r)))
      else
        .ok (.INT (ratTrunc (arithOpQ op (numericToQ l) (numericToQ r))))) := by
  rcases l with _ | li | lq | lb | ls | lsq <;>
    rcases r with _ | ri | rq | rb | rs | rsq <;>
    simp only [isNumeric, Bool.false_eq_true] at hl hr <;>
    rcases hop with h | h | h | h <;> subst h <;> rfl

/-- Witness for `C6_arith_kind_selection`: `7 / 2` on two Ints computes 3.5
and truncates to Int 3. -/
theorem C6_witness :
    evaluateBinaryOp .DIVIDE (.INT 7) (.INT 2) = .ok (.INT 3) := by
  rw [C6_arith_kind_selection .DIVIDE (.INT 7) (.INT 2)
    (Or.inr (Or.inr (Or.inr rfl))) rfl rfl]
  norm_num [isFloatKind, arithOpQ, numericToQ, ratTrunc]
  decide

/-! ### Claim C7: equality by printed form, and Scenario C -/

/-- The default stream rendering of the double `1.0` is `"1"` (six
significant digits, fixed notation, trailing fractional zeros and the
decimal point stripped). -/
theorem floatToString_one : floatToString 1 = "1" := by
  have h0 : ¬((1 : ℚ) = 0) := by norm_num
  have hlt : ¬((1 : ℚ) < 0) := by norm_num
  have habs : |(1 : ℚ)| = 1 := abs_one
  have hlog : qlog10 1 = 0 := by
    unfold qlog10
    rw [Rat.num_one, Rat.den_one]
    simp [qpow10]
  have hq5 : (1 : ℚ) * qpow10 (5 - 0) = 100000 := by
    norm_num [qpow10]
    rw [show Int.toNat 5 = 5 from rfl]
    norm_num
  have hround : roundHalfEven 100000 = 100000 := by
    unfold roundHalfEven
    norm_num
  simp only [floatToString]
  rw [if_neg h0, if_neg hlt, habs, hlog, hq5, hround]
  rfl

/-- C7, counterexample.  The claim includes that the source program
`func main() -> int { print 1==1; return 0; }` produces the output log
`["true"]`.  In fact it does not parse: `parsePrintStatement` consumes only
the primary `1` and stops at `==` (not a primary start), the block loop
then tries to parse `== 1` as a statement, `parsePrimary` throws
`Expected expression` at the `==` token (index 9), and the all-or-nothing
top-level parse yields a null program — nothing is ever interpreted. -/
theorem C7_counterexample :
    parse 100 scenarioCTokens = some none ∧
    parseProgram 100 scenarioCTokens 0 = .err "Expected expression" 9 :=
  ⟨rfl, rfl⟩

/-- C7, amended.  `==`/`!=` compare the printed textual representations of
the operands (so Int 1 and Float 1.0, both printing `"1"`, compare equal);
but the scenario program needs parentheses: `print 1==1` fails to parse
(see `C7_counterexample`), while
`func main() -> int { print (1==1); return 0; }` parses and produces the
output log `["true"]`. -/
theorem C7_amended_equality_by_printed_form :
    (∀ l r : RuntimeValue,
        evaluateBinaryOp .EQUALS l r = .ok (.BOOL (toStringV l == toStringV r)) ∧
        evaluateBinaryOp .NOT_EQUALS l r =
          .ok (.BOOL (!(toStringV l == toStringV r)))) ∧
    evaluateBinaryOp .EQUALS (.INT 1) (.FLOAT 1) = .ok (.BOOL true) ∧
    parse 100 scenarioCParenTokens = some (some scenarioCParenProgram) ∧
    run 30 [] scenarioCParenProgram = some ⟨true, 0, ["true"], ""⟩ := by
  refine ⟨fun l r => ⟨rfl, rfl⟩, ?_, rfl, rfl⟩
  simp only [evaluateBinaryOp, toStringV, floatToString_one]
  rfl

/-! ### Claim C9: assignment to an unbound name -/

/-- C9.  `Interpreter::assign` falls back to `define` when no scope frame
holds the target name, so it creates the binding in the innermost frame and
executing an Assignment statement never raises an undefined-variable error
(it yields a normal outcome whenever the right-hand side evaluates); only
reading an unbound name through `Interpreter::get` raises the
undefined-variable runtime error. -/
theorem C9_assignment_never_undefined :
    (∀ (scopes : Scopes) (n : String) (v : RuntimeValue),
        scopesHas scopes n = false → assignVar scopes n v = defineVar scopes n v) ∧
    (∀ (scopes : Scopes) (n : String),
        scopesHas scopes n = false →
        getVar scopes n =
          .error ("Runtime error: Undefined variable '" ++ n ++ "'")) ∧
    (∀ (fuel : Nat) (fns : List (String × FunctionDecl)) (st st1 : IState)
        (nameTok : Token) (e : Expr) (v : RuntimeValue),
        evalExpr fuel fns st e = .ok st1 v →
        execStmt (fuel + 1) fns st (.Assignment nameTok e) =
          .ok { st1 with scopes := assignVar st1.scopes nameTok.lexeme v } ()) := by
  refine ⟨?_, ?_, ?_⟩
  · intro scopes n v h
    unfold assignVar
    rw [h]
    rfl
  · intro scopes n h
    induction scopes with
    | nil => rfl
    | cons f rest ih =>
      simp only [scopesHas, List.any_cons, Bool.or_eq_false_iff] at h
      have hf : frameFind f n = none := by
        have := h.1
        unfold frameHas at this
        cases hff : frameFind f n with
        | none => rfl
        | some w => rw [hff] at this; exact absurd this (by simp)
      unfold getVar
      rw [hf]
      exact ih (by simp [scopesHas, h.2])
  · intro fuel fns st st1 nameTok e v hev
    simp only [execStmt]
    rw [hev]
    rfl

/-- Witness for `C9_assignment_never_undefined` at concrete inputs. -/
theorem C9_witness :
    assignVar [[("a", .INT 1)]] "b" (.INT 2) =
      defineVar [[("a", .INT 1)]] "b" (.INT 2) ∧
    getVar [[("a", .INT 1)]] "b" =
      .error "Runtime error: Undefined variable 'b'" ∧
    execStmt 2 [] ⟨[], [], []⟩
        (.Assignment (tok .IDENTIFIER "b") (.Literal (tok .NUMBER "7"))) =
      .ok ⟨assignVar [] "b" (.INT 7), [], []⟩ () :=
  ⟨C9_assignment_never_undefined.1 [[("a", .INT 1)]] "b" (.INT 2) rfl,
   C9_assignment_never_undefined.2.1 [[("a", .INT 1)]] "b" rfl,
   C9_assignment_never_undefined.2.2 1 [] ⟨[], [], []⟩ ⟨[], [], []⟩
     (tok .IDENTIFIER "b") (.Literal (tok .NUMBER "7")) (.INT 7) rfl⟩

/-! ### Code-generator helper lemmas: each generator only appends code -/


theorem emit_code (s : CGState) (i : TAC) : (emit s i).code = s.code ++ [i] := rfl

mutual

theorem genExpr_append (e : Expr) (s : CGState) :
    ∃ d, (generateExpression e s).2.code = s.code ++ d := by
  cases e with
  | Binary l op r =>
    obtain ⟨d1, h1⟩ := genExpr_append l s
    rcases hgl : generateExpression l s with ⟨left, s1⟩
    rw [hgl] at h1
    replace h1 : s1.code = s.code ++ d1 := h1
    obtain ⟨d2, h2⟩ := genExpr_append r s1
    rcases hgr : generateExpression r s1 with ⟨right, s2⟩
    rw [hgr] at h2
    replace h2 : s2.code = s1.code ++ d2 := h2
    refine ⟨d1 ++ d2 ++ [⟨getOperatorTAC op.type, left, right,
      "t" ++ toString s2.tempCounter, op.line⟩], ?_⟩
    simp only [generateExpression, hgl, hgr, newTemp, emit_code]
    simp [h1, h2]
  | Unary op r =>
    obtain ⟨d1, h1⟩ := genExpr_append r s
    rcases hgr : generateExpression r s with ⟨operand, s1⟩
    rw [hgr] at h1
    replace h1 : s1.code = s.code ++ d1 := h1
    refine ⟨d1 ++ [⟨getOperatorTAC op.type, operand, "",
      "t" ++ toString s1.tempCounter, op.line⟩], ?_⟩
    simp only [generateExpression, hgr, newTemp]
    rw [emit_code]
    simp [h1]
  | Literal v => exact ⟨[], by simp [generateExpression]⟩
  | Variable n => exact ⟨[], by simp [generateExpression]⟩
  | Call callee args =>
    obtain ⟨d1, h1⟩ := genArgs_append callee.line args (newTemp s).2
    rcases hga : generateCallArgs callee.line args (newTemp s).2 with ⟨argsStr, s2⟩
    rw [hga] at h1
    replace h1 : s2.code = ((newTemp s).2).code ++ d1 := h1
    replace h1 : s2.code = s.code ++ d1 := h1
    refine ⟨d1 ++ [⟨"CALL", callee.lexeme, argsStr,
      "t" ++ toString s.tempCounter, callee.line⟩], ?_⟩
    simp only [generateExpression, newTemp] at hga ⊢
    simp only [hga]
    rw [emit_code]
    simp [h1]
  | SequenceE elems =>
    obtain ⟨d1, h1⟩ := genSeqStores_append (exprLine (.SequenceE elems)) elems 0
      ("t" ++ toString s.tempCounter)
      (emit (newTemp s).2 ⟨"ASSIGN", "[]", "", "t" ++ toString s.tempCounter,
        exprLine (.SequenceE elems)⟩)
    refine ⟨⟨"ASSIGN", "[]", "", "t" ++ toString s.tempCounter,
      exprLine (.SequenceE elems)⟩ :: d1, ?_⟩
    simp only [generateExpression, newTemp] at h1 ⊢
    rw [h1, emit_code]
    simp

theorem genArgs_append (line : Int) (es : List Expr) (s : CGState) :
    ∃ d, (generateCallArgs line es s).2.code = s.code ++ d := by
  cases es with
  | nil => exact ⟨[], by simp [generateCallArgs]⟩
  | cons e rest =>
    obtain ⟨d1, h1⟩ := genExpr_append e s
    rcases hge : generateExpression e s with ⟨arg, s1⟩
    rw [hge] at h1
    replace h1 : s1.code = s.code ++ d1 := h1
    obtain ⟨d2, h2⟩ := genArgs_append line rest
      (emit s1 ⟨"PARAM", arg, "", "", line⟩)
    rcases hgr : generateCallArgs line rest
      (emit s1 ⟨"PARAM", arg, "", "", line⟩) with ⟨restStr, s3⟩
    rw [hgr] at h2
    replace h2 : s3.code = (emit s1 ⟨"PARAM", arg, "", "", line⟩).code ++ d2 := h2
    refine ⟨d1 ++ [⟨"PARAM", arg, "", "", line⟩] ++ d2, ?_⟩
    simp only [generateCallArgs, hge, hgr]
    rw [h2, emit_code, h1]
    simp

theorem genSeqStores_append (line : Int) (es : List Expr) (i : Nat) (r : String)
    (s : CGState) :
    ∃ d, (generateSequenceStores line es i r s).code = s.code ++ d := by
  cases es with
  | nil => exact ⟨[], by simp [generateSequenceStores]⟩
  | cons e rest =>
    obtain ⟨d1, h1⟩ := genExpr_append e s
    rcases hge : generateExpression e s with ⟨element, s1⟩
    rw [hge] at h1
    replace h1 : s1.code = s.code ++ d1 := h1
    obtain ⟨d2, h2⟩ := genSeqStores_append line rest (i + 1) r
      (emit s1 ⟨"STORE", element, toString i, r, line⟩)
    refine ⟨d1 ++ [⟨"STORE", element, toString i, r, line⟩] ++ d2, ?_⟩
    simp only [generateSequenceStores, hge]
    rw [h2, emit_code, h1]
    simp

end

mutual

theorem genStmt_append (st : Stmt) (s : CGState) :
    ∃ d, (generateStatement st s).code = s.code ++ d := by
  cases st with
  | Declaration name dt init =>
    cases init with
    | none => exact ⟨[], by simp [generateStatement]⟩
    | some e =>
      obtain ⟨d1, h1⟩ := genExpr_append e s
      rcases hge : generateExpression e s with ⟨value, s1⟩
      rw [hge] at h1
      replace h1 : s1.code = s.code ++ d1 := h1
      refine ⟨d1 ++ [⟨"ASSIGN", value, "", name.lexeme, name.line⟩], ?_⟩
      simp only [generateStatement, hge]
      rw [emit_code, h1]
      simp
  | Assignment name e =>
    obtain ⟨d1, h1⟩ := genExpr_append e s
    rcases hge : generateExpression e s with ⟨value, s1⟩
    rw [hge] at h1
    replace h1 : s1.code = s.code ++ d1 := h1
    refine ⟨d1 ++ [⟨"ASSIGN", value, "", name.lexeme, name.line⟩], ?_⟩
    simp only [generateStatement, hge]
    rw [emit_code, h1]
    simp
  | If cond thenB elseB =>
    obtain ⟨d1, h1⟩ := genExpr_append cond s
    rcases hge : generateExpression cond s with ⟨condition, s1⟩
    rw [hge] at h1
    replace h1 : s1.code = s.code ++ d1 := h1
    obtain ⟨d2, h2⟩ := genStmts_append thenB
      (emit { s1 with labelCounter := s1.labelCounter + 1 + 1 }
        ⟨"IF_FALSE", condition, "", "L" ++ toString s1.labelCounter,
          stmtLine (.If cond thenB elseB)⟩)
    obtain ⟨d3, h3⟩ := genStmts_append elseB
      (emit (emit (generateStatements thenB
          (emit { s1 with labelCounter := s1.labelCounter + 1 + 1 }
            ⟨"IF_FALSE", condition, "", "L" ++ toString s1.labelCounter,
              stmtLine (.If cond thenB elseB)⟩))
          ⟨"GOTO", "", "", "L" ++ toString (s1.labelCounter + 1),
            stmtLine (.If cond thenB elseB)⟩)
        ⟨"LABEL", "", "", "L" ++ toString s1.labelCounter,
          stmtLine (.If cond thenB elseB)⟩)
    refine ⟨d1 ++
      [⟨"IF_FALSE", condition, "", "L" ++ toString s1.labelCounter,
        stmtLine (.If cond thenB elseB)⟩] ++ d2 ++
      [⟨"GOTO", "", "", "L" ++ toString (s1.labelCounter + 1),
        stmtLine (.If cond thenB elseB)⟩,
       ⟨"LABEL", "", "", "L" ++ toString s1.labelCounter,
        stmtLine (.If cond thenB elseB)⟩] ++ d3 ++
      [⟨"LABEL", "", "", "L" ++ toString (s1.labelCounter + 1),
        stmtLine (.If cond thenB elseB)⟩], ?_⟩
    simp only [generateStatement, hge, newLabel]
    rw [emit_code, h3, emit_code, emit_code, h2, emit_code, h1]
    simp [List.append_assoc]
  | While cond body =>
    obtain ⟨d1, h1⟩ := genStmts_append body
      (emit (emit { s with labelCounter := s.labelCounter + 1 + 1 + 1 }
        ⟨"GOTO", "", "", "L" ++ toString (s.labelCounter + 1),
          stmtLine (.While cond body)⟩)
        ⟨"LABEL", "", "", "L" ++ toString s.labelCounter,
          stmtLine (.While cond body)⟩)
    obtain ⟨d2, h2⟩ := genExpr_append cond
      (emit (generateStatements body
        (emit (emit { s with labelCounter := s.labelCounter + 1 + 1 + 1 }
          ⟨"GOTO", "", "", "L" ++ toString (s.labelCounter + 1),
            stmtLine (.While cond body)⟩)
          ⟨"LABEL", "", "", "L" ++ toString s.labelCounter,
            stmtLine (.While cond body)⟩))
        ⟨"LABEL", "", "", "L" ++ toString (s.labelCounter + 1),
          stmtLine (.While cond body)⟩)
    rcases hgc : generateExpression cond
      (emit (generateStatements body
        (emit (emit { s with labelCounter := s.labelCounter + 1 + 1 + 1 }
          ⟨"GOTO", "", "", "L" ++ toString (s.labelCounter + 1),
            stmtLine (.While cond body)⟩)
          ⟨"LABEL", "", "", "L" ++ toString s.labelCounter,
            stmtLine (.While cond body)⟩))
        ⟨"LABEL", "", "", "L" ++ toString (s.labelCounter + 1),
          stmtLine (.While cond body)⟩) with ⟨condition, s8⟩
    rw [hgc] at h2
    replace h2 : s8.code = _ := h2
    refine ⟨[⟨"GOTO", "", "", "L" ++ toString (s.labelCounter + 1),
        stmtLine (.While cond body)⟩,
      ⟨"LABEL", "", "", "L" ++ toString s.labelCounter,
        stmtLine (.While cond body)⟩] ++ d1 ++
      [⟨"LABEL", "", "", "L" ++ toString (s.labelCounter + 1),
        stmtLine (.While cond body)⟩] ++ d2 ++
      [⟨"IF", condition, "", "L" ++ toString s.labelCounter,
        stmtLine (.While cond body)⟩,
       ⟨"LABEL", "", "", "L" ++ toString (s.labelCounter + 1 + 1),
        stmtLine (.While cond body)⟩], ?_⟩
    simp only [generateStatement, newLabel, hgc]
    rw [emit_code, emit_code, h2, emit_code, h1, emit_code, emit_code]
    simp [List.append_assoc]
  | Return val =>
    cases val with
    | none => exact ⟨[⟨"RETURN", "", "", "", stmtLine (.Return none)⟩], by
        simp [generateStatement, emit]⟩
    | some e =>
      obtain ⟨d1, h1⟩ := genExpr_append e s
      rcases hge : generateExpression e s with ⟨value, s1⟩
      rw [hge] at h1
      replace h1 : s1.code = s.code ++ d1 := h1
      refine ⟨d1 ++ [⟨"RETURN", value, "", "", stmtLine (.Return (some e))⟩], ?_⟩
      simp only [generateStatement, hge]
      rw [emit_code, h1]
      simp
  | ExprStmt e =>
    obtain ⟨d1, h1⟩ := genExpr_append e s
    exact ⟨d1, by simp only [generateStatement]; exact h1⟩
  | Block stmts => exact ⟨[], by simp [generateStatement]⟩

theorem genStmts_append (sts : List Stmt) (s : CGState) :
    ∃ d, (generateStatements sts s).code = s.code ++ d := by
  cases sts with
  | nil => exact ⟨[], by simp [generateStatements]⟩
  | cons st rest =>
    obtain ⟨d1, h1⟩ := genStmt_append st s
    obtain ⟨d2, h2⟩ := genStmts_append rest (generateStatement st s)
    refine ⟨d1 ++ d2, ?_⟩
    simp only [generateStatements]
    rw [h2, h1, List.append_assoc]

end

/-- C8.  For every While statement, the generator emits exactly:
`Goto condLabel`; `Label startLabel`; the lowered body; `Label condLabel`;
the lowered condition; `If cond, startLabel`; `Label endLabel` — in this
order, where with `n` the label counter at entry `startLabel = L<n>`,
`condLabel = L<n+1>`, `endLabel = L<n+2>` (allocated in this order), the
`If` tests the operand name returned for the condition, and the end label
is emitted although nothing jumps to it.  `bodyCode`/`condCode` are tied to
the actual sub-lowerings by the first two conjuncts. -/
theorem C8_while_lowering_shape (cond : Expr) (body : List Stmt) (s : CGState) :
    ∃ (bodyCode condCode : List TAC) (condName : String),
      (generateStatements body
          (emit (emit { s with labelCounter := s.labelCounter + 1 + 1 + 1 }
            ⟨"GOTO", "", "", "L" ++ toString (s.labelCounter + 1),
              stmtLine (.While cond body)⟩)
            ⟨"LABEL", "", "", "L" ++ toString s.labelCounter,
              stmtLine (.While cond body)⟩)).code =
        (emit (emit { s with labelCounter := s.labelCounter + 1 + 1 + 1 }
          ⟨"GOTO", "", "", "L" ++ toString (s.labelCounter + 1),
            stmtLine (.While cond body)⟩)
          ⟨"LABEL", "", "", "L" ++ toString s.labelCounter,
            stmtLine (.While cond body)⟩).code ++ bodyCode ∧
      condName =
        (generateExpression cond
          (emit (generateStatements body
            (emit (emit { s with labelCounter := s.labelCounter + 1 + 1 + 1 }
              ⟨"GOTO", "", "", "L" ++ toString (s.labelCounter + 1),
                stmtLine (.While cond body)⟩)
              ⟨"LABEL", "", "", "L" ++ toString s.labelCounter,
                stmtLine (.While cond body)⟩))
            ⟨"LABEL", "", "", "L" ++ toString (s.labelCounter + 1),
              stmtLine (.While cond body)⟩)).1 ∧
      (generateStatement (.While cond body) s).code =
        s.code ++
          [⟨"GOTO", "", "", "L" ++ toString (s.labelCounter + 1),
            stmtLine (.While cond body)⟩,
           ⟨"LABEL", "", "", "L" ++ toString s.labelCounter,
            stmtLine (.While cond body)⟩] ++
          bodyCode ++
          [⟨"LABEL", "", "", "L" ++ toString (s.labelCounter + 1),
            stmtLine (.While cond body)⟩] ++
          condCode ++
          [⟨"IF", condName, "", "L" ++ toString s.labelCounter,
            stmtLine (.While cond body)⟩,
           ⟨"LABEL", "", "", "L" ++ toString (s.labelCounter + 1 + 1),
            stmtLine (.While cond body)⟩] := by
  obtain ⟨d1, h1⟩ := genStmts_append body
    (emit (emit { s with labelCounter := s.labelCounter + 1 + 1 + 1 }
      ⟨"GOTO", "", "", "L" ++ toString (s.labelCounter + 1),
        stmtLine (.While cond body)⟩)
      ⟨"LABEL", "", "", "L" ++ toString s.labelCounter,
        stmtLine (.While cond body)⟩)
  obtain ⟨d2, h2⟩ := genExpr_append cond
    (emit (generateStatements body
      (emit (emit { s with labelCounter := s.labelCounter + 1 + 1 + 1 }
        ⟨"GOTO", "", "", "L" ++ toString (s.labelCounter + 1),
          stmtLine (.While cond body)⟩)
        ⟨"LABEL", "", "", "L" ++ toString s.labelCounter,
          stmtLine (.While cond body)⟩))
      ⟨"LABEL", "", "", "L" ++ toString (s.labelCounter + 1),
        stmtLine (.While cond body)⟩)
  rcases hgc : generateExpression cond
    (emit (generateStatements body
      (emit (emit { s with labelCounter := s.labelCounter + 1 + 1 + 1 }
        ⟨"GOTO", "", "", "L" ++ toString (s.labelCounter + 1),
          stmtLine (.While cond body)⟩)
        ⟨"LABEL", "", "", "L" ++ toString s.labelCounter,
          stmtLine (.While cond body)⟩))
      ⟨"LABEL", "", "", "L" ++ toString (s.labelCounter + 1),
        stmtLine (.While cond body)⟩) with ⟨condition, s8⟩
  rw [hgc] at h2
  replace h2 : s8.code = _ := h2
  refine ⟨d1, d2, condition, h1, by simp [hgc], ?_⟩
  simp only [generateStatement, newLabel, hgc]
  rw [emit_code, emit_code, h2, emit_code, h1, emit_code, emit_code]
  simp [List.append_assoc]

end Numix
